import Mathlib

/-!
The gstreamer-vaapi display session: capability discovery of `gstvaapidisplay.c`

A shallow embedding of `gst-libs/gst/vaapi/gstvaapidisplay.c`.

* A `GArray *` is a list; a `NULL` array pointer is `none`.
* `GstVaapiImageFormat` is a C enumeration whose value `0` means "no format".
* The format registry (`gstvaapiimageformat.c`), the VA driver, the class hooks
  and the GLib routines are not part of this file of the repository: they are
  the fields of `FormatRegistry` and `Platform`, and every result below holds
  for all of them.
-/

namespace GstVaapi

/-- The C enumeration `GstVaapiImageFormat` (an unsigned 32-bit value); `0` is "no format". -/
abbrev GstVaapiImageFormat := Nat

/-- The functions and constants of `gstvaapiimageformat.[ch]` that `gstvaapidisplay.c` uses.
`D` is the driver descriptor type `VAImageFormat`, `S` the type of one capability structure
of a `GstCaps`. -/
structure FormatRegistry (D S : Type) where
  /-- The lookup `gst_vaapi_image_format(va_format)`; `0` when the descriptor is not recognised. -/
  gst_vaapi_image_format : D → GstVaapiImageFormat
  /-- The classification `gst_vaapi_image_format_is_yuv`. -/
  gst_vaapi_image_format_is_yuv : GstVaapiImageFormat → Bool
  /-- The classification `gst_vaapi_image_format_is_rgb`. -/
  gst_vaapi_image_format_is_rgb : GstVaapiImageFormat → Bool
  /-- The `guint` returned by `gst_vaapi_image_format_get_score`. -/
  gst_vaapi_image_format_get_score : GstVaapiImageFormat → Nat
  /-- The result of `gst_vaapi_image_format_get_caps`; `none` is a `NULL` caps pointer. -/
  gst_vaapi_image_format_get_caps : GstVaapiImageFormat → Option (List S)
  /-- The enumeration constant `GST_VAAPI_IMAGE_YV12`. -/
  GST_VAAPI_IMAGE_YV12 : GstVaapiImageFormat
  /-- The enumeration constant `GST_VAAPI_IMAGE_I420`. -/
  GST_VAAPI_IMAGE_I420 : GstVaapiImageFormat

variable {D S : Type}

/-- The `for` loop of `append_formats` over the `n` descriptors `va_formats[0..n)`.
The state is `(array, has_YV12, has_I420)`. -/
def append_formats_loop (R : FormatRegistry D S) :
    List D → List GstVaapiImageFormat × Bool × Bool → List GstVaapiImageFormat × Bool × Bool
  | [], st => st
  | va_format :: rest, (array, has_YV12, has_I420) =>
    let format := R.gst_vaapi_image_format va_format
    if format = 0 then
      append_formats_loop R rest (array, has_YV12, has_I420)
    else if format = R.GST_VAAPI_IMAGE_YV12 then
      append_formats_loop R rest (array ++ [format], true, has_I420)
    else if format = R.GST_VAAPI_IMAGE_I420 then
      append_formats_loop R rest (array ++ [format], has_YV12, true)
    else
      append_formats_loop R rest (array ++ [format], has_YV12, has_I420)

/-- The function `append_formats(array, va_formats, n)`: the list `va_formats` holds the `n`
descriptors read by the loop; the result is the content of `array` afterwards. -/
def append_formats (R : FormatRegistry D S) (array : List GstVaapiImageFormat)
    (va_formats : List D) : List GstVaapiImageFormat :=
  match append_formats_loop R va_formats (array, false, false) with
  | (array, has_YV12, has_I420) =>
    if has_YV12 && !has_I420 then
      array ++ [R.GST_VAAPI_IMAGE_I420]
    else if has_I420 && !has_YV12 then
      array ++ [R.GST_VAAPI_IMAGE_YV12]
    else
      array

/-- The recognised formats of a descriptor sequence: the non-zero results of the lookup,
in encounter order. -/
def mapped_formats (R : FormatRegistry D S) (va_formats : List D) : List GstVaapiImageFormat :=
  (va_formats.map R.gst_vaapi_image_format).filter (fun format => format ≠ 0)

/-- A small registry over four-character codes written as numbers, used to evaluate the
definitions: codes 1, 2, 3 are the YUV formats 10 (NV12), 11 (YV12), 12 (I420); codes 4, 5
are the RGB formats 20 and 21; every other code is not recognised. -/
def demoRegistry : FormatRegistry Nat Nat where
  gst_vaapi_image_format := fun d =>
    if d = 1 then 10 else if d = 2 then 11 else if d = 3 then 12
    else if d = 4 then 20 else if d = 5 then 21 else 0
  gst_vaapi_image_format_is_yuv := fun f => f = 10 || f = 11 || f = 12
  gst_vaapi_image_format_is_rgb := fun f => f = 20 || f = 21
  gst_vaapi_image_format_get_score := fun f =>
    if f = 10 then 0 else if f = 11 then 1 else if f = 12 then 2
    else if f = 20 then 3 else if f = 21 then 4 else 0
  gst_vaapi_image_format_get_caps := fun f =>
    if f = 10 ∨ f = 11 ∨ f = 12 then some [f] else if f = 20 then some [f, f + 100] else none
  GST_VAAPI_IMAGE_YV12 := 11
  GST_VAAPI_IMAGE_I420 := 12

/-! ### The comparators and the sort routine -/

/-- The cast `(gint)u` of a `guint` (32-bit two's complement). -/
def to_gint (u : Nat) : Int :=
  if u % 2 ^ 32 < 2 ^ 31 then ((u % 2 ^ 32 : Nat) : Int) else ((u % 2 ^ 32 : Nat) : Int) - 2 ^ 32

/-- The value kept by a `gint` after signed 32-bit arithmetic (wrap-around). -/
def wrap_gint (x : Int) : Int :=
  (x + 2 ^ 31) % 2 ^ 32 - 2 ^ 31

/-- The comparator `compare_yuv_formats(a, b)` on the formats `*a` and `*b`. -/
def compare_yuv_formats (R : FormatRegistry D S) (fmt1 fmt2 : GstVaapiImageFormat) : Int :=
  let is_fmt1_yuv := R.gst_vaapi_image_format_is_yuv fmt1
  let is_fmt2_yuv := R.gst_vaapi_image_format_is_yuv fmt2
  if is_fmt1_yuv != is_fmt2_yuv then
    (if is_fmt1_yuv then -1 else 1)
  else
    wrap_gint (to_gint (R.gst_vaapi_image_format_get_score fmt1) -
      to_gint (R.gst_vaapi_image_format_get_score fmt2))

/-- The comparator `compare_rgb_formats(a, b)` on the formats `*a` and `*b`. -/
def compare_rgb_formats (R : FormatRegistry D S) (fmt1 fmt2 : GstVaapiImageFormat) : Int :=
  let is_fmt1_rgb := R.gst_vaapi_image_format_is_rgb fmt1
  let is_fmt2_rgb := R.gst_vaapi_image_format_is_rgb fmt2
  if is_fmt1_rgb != is_fmt2_rgb then
    (if is_fmt1_rgb then -1 else 1)
  else
    wrap_gint (to_gint (R.gst_vaapi_image_format_get_score fmt1) -
      to_gint (R.gst_vaapi_image_format_get_score fmt2))

/-- A comparator is consistent on the elements of a list: any two of them are comparable
and "not after" is transitive among them. -/
def ConsistentOn {α : Type} (compare_func : α → α → Int) (l : List α) : Prop :=
  (∀ a ∈ l, ∀ b ∈ l, compare_func a b ≤ 0 ∨ compare_func b a ≤ 0) ∧
  (∀ a ∈ l, ∀ b ∈ l, ∀ c ∈ l,
    compare_func a b ≤ 0 → compare_func b c ≤ 0 → compare_func a c ≤ 0)

/-- What is assumed of GLib's `g_array_sort(array, compare_func)`: the array afterwards is a
rearrangement of the array before, and it is in comparator order whenever the comparator is
consistent on its elements. -/
def GArraySortContract {α : Type} (sort : (α → α → Int) → List α → List α) : Prop :=
  ∀ (compare_func : α → α → Int) (l : List α),
    (sort compare_func l).Perm l ∧
    (ConsistentOn compare_func l →
      (sort compare_func l).Pairwise (fun a b => compare_func a b ≤ 0))

/-- Insertion of one element into a list in comparator order. -/
def ordered_insert {α : Type} (compare_func : α → α → Int) (a : α) : List α → List α
  | [] => [a]
  | b :: l =>
    if compare_func a b ≤ 0 then a :: b :: l else b :: ordered_insert compare_func a l

/-- An insertion sort driven by a qsort-style comparator: one routine that meets
`GArraySortContract`, used to evaluate the discovery on concrete inputs. -/
def insertion_sort {α : Type} (compare_func : α → α → Int) : List α → List α
  | [] => []
  | a :: l => ordered_insert compare_func a (insertion_sort compare_func l)

/-! ### The display session -/

/-- The outcome of a C call that may dereference a `NULL` pointer. -/
inductive Run (α : Type) where
  /-- The call dereferences a `NULL` pointer. -/
  | fault : Run α
  /-- The call returns the value. -/
  | ret : α → Run α
  deriving DecidableEq, Repr

/-- The calls into the class hooks and the VA driver that a run makes, in order. -/
inductive Call where
  | open_display
  | get_display
  | close_display
  | vaInitialize
  | vaTerminate
  | vaQueryConfigProfiles
  | vaQueryImageFormats
  | vaQuerySubpictureFormats
  deriving DecidableEq, Repr

/-- The structure `_GstVaapiDisplayPrivate` (the mutex is left out). `display` is the
`VADisplay` pointer with `0` for `NULL`; a `GArray *` field is `none` when `NULL`.
A `VAProfile` is a C enumeration value, an integer. -/
structure GstVaapiDisplayPrivate where
  display : Nat
  create_display : Bool
  profiles : Option (List Int)
  image_formats : Option (List GstVaapiImageFormat)
  subpicture_formats : Option (List GstVaapiImageFormat)
  deriving DecidableEq, Repr

/-- Everything outside `gstvaapidisplay.c` that a run depends on: the class hooks, the VA
driver's answers, the results of the GLib allocations, and the GLib sort routine.
A query field is the pair of "`vaapi_check_status` accepts the returned status" and the `n`
entries the driver wrote. -/
structure Platform (D : Type) where
  /-- The hook `klass->open_display`: `none` when the hook is `NULL`, else what it returns. -/
  open_display : Option Bool
  /-- The hook `klass->get_display`: `none` when the hook is `NULL`, else the handle returned. -/
  get_display : Option Nat
  /-- Whether the hook `klass->close_display` is set. -/
  close_display : Bool
  /-- Whether `vaapi_check_status` accepts the status of `vaInitialize`. -/
  vaInitialize : Bool
  /-- Whether `g_new(VAProfile, vaMaxNumProfiles(..))` is not `NULL`. -/
  g_new_profiles : Bool
  vaQueryConfigProfiles : Bool × List Int
  /-- Whether the `g_array_new` of `priv->profiles` is not `NULL`. -/
  g_array_new_profiles : Bool
  /-- Whether `g_new(VAImageFormat, vaMaxNumImageFormats(..))` is not `NULL`. -/
  g_new_formats : Bool
  vaQueryImageFormats : Bool × List D
  /-- Whether the `g_array_new` of `priv->image_formats` is not `NULL`. -/
  g_array_new_image_formats : Bool
  /-- Whether both `g_renew(VAImageFormat, formats, n)` and `g_new(guint, n)` are not `NULL`. -/
  g_renew_formats_and_flags : Bool
  /-- The subpicture query; the per-format flags it also writes are never read. -/
  vaQuerySubpictureFormats : Bool × List D
  /-- Whether the `g_array_new` of `priv->subpicture_formats` is not `NULL`. -/
  g_array_new_subpicture_formats : Bool
  /-- The routine `g_array_sort`. -/
  g_array_sort : (GstVaapiImageFormat → GstVaapiImageFormat → Int) →
    List GstVaapiImageFormat → List GstVaapiImageFormat
  /-- Whether `gst_caps_new_empty()` is not `NULL`. -/
  gst_caps_new_empty : Bool

/-- The loop of `find_profile`. -/
def find_profile_loop (profile : Int) : List Int → Bool
  | [] => false
  | p :: rest => if p = profile then true else find_profile_loop profile rest

/-- The function `find_profile(profiles, profile)`; it reads `profiles->len`. -/
def find_profile (profiles : Option (List Int)) (profile : Int) : Run Bool :=
  match profiles with
  | none => Run.fault
  | some l => Run.ret (find_profile_loop profile l)

/-- The loop of `find_format`. -/
def find_format_loop (format : GstVaapiImageFormat) : List GstVaapiImageFormat → Bool
  | [] => false
  | f :: rest => if f = format then true else find_format_loop format rest

/-- The function `find_format(formats, format)`; it reads `formats->len`. -/
def find_format (formats : Option (List GstVaapiImageFormat)) (format : GstVaapiImageFormat) :
    Run Bool :=
  match formats with
  | none => Run.fault
  | some l => Run.ret (find_format_loop format l)

/-- The loop of `get_caps`: `out_caps` grows by the caps of each format that has some. -/
def get_caps_loop (R : FormatRegistry D S) : List GstVaapiImageFormat → List S → List S
  | [], out_caps => out_caps
  | format :: rest, out_caps =>
    match R.gst_vaapi_image_format_get_caps format with
    | some caps => get_caps_loop R rest (out_caps ++ caps)
    | none => get_caps_loop R rest out_caps

/-- The function `get_caps(formats)`: `ret none` is a returned `NULL`; the loop reads
`formats->len`. -/
def get_caps (R : FormatRegistry D S) (E : Platform D)
    (formats : Option (List GstVaapiImageFormat)) : Run (Option (List S)) :=
  if E.gst_caps_new_empty = false then Run.ret none
  else
    match formats with
    | none => Run.fault
    | some l => Run.ret (some (get_caps_loop R l []))

/-- The function `gst_vaapi_display_destroy`: the state afterwards and the calls made. -/
def gst_vaapi_display_destroy (E : Platform D) (priv : GstVaapiDisplayPrivate) :
    GstVaapiDisplayPrivate × List Call :=
  let calls1 := if priv.display ≠ 0 then [Call.vaTerminate] else []
  let calls2 :=
    if priv.create_display = true ∧ E.close_display = true then [Call.close_display] else []
  ({ display := 0, create_display := priv.create_display, profiles := none,
     image_formats := none, subpicture_formats := none }, calls1 ++ calls2)

/-- The block "VA subpicture formats" of `gst_vaapi_display_create`, up to `end:`. -/
def gst_vaapi_display_create_subpicture_formats (R : FormatRegistry D S) (E : Platform D)
    (priv : GstVaapiDisplayPrivate) (calls : List Call) :
    Bool × GstVaapiDisplayPrivate × List Call :=
  if E.g_renew_formats_and_flags = false then (false, priv, calls) else
  let calls := calls ++ [Call.vaQuerySubpictureFormats]
  if E.vaQuerySubpictureFormats.1 = false then (false, priv, calls) else
  if E.g_array_new_subpicture_formats = false then
    (false, { priv with subpicture_formats := none }, calls) else
  let subpicture_formats :=
    E.g_array_sort (compare_rgb_formats R) (append_formats R [] E.vaQuerySubpictureFormats.2)
  (true, { priv with subpicture_formats := some subpicture_formats }, calls)

/-- The block "VA image formats" of `gst_vaapi_display_create` and what follows it. -/
def gst_vaapi_display_create_image_formats (R : FormatRegistry D S) (E : Platform D)
    (priv : GstVaapiDisplayPrivate) (calls : List Call) :
    Bool × GstVaapiDisplayPrivate × List Call :=
  if E.g_new_formats = false then (false, priv, calls) else
  let calls := calls ++ [Call.vaQueryImageFormats]
  if E.vaQueryImageFormats.1 = false then (false, priv, calls) else
  if E.g_array_new_image_formats = false then
    (false, { priv with image_formats := none }, calls) else
  let image_formats :=
    E.g_array_sort (compare_yuv_formats R) (append_formats R [] E.vaQueryImageFormats.2)
  gst_vaapi_display_create_subpicture_formats R E
    { priv with image_formats := some image_formats } calls

/-- The block "VA profiles" of `gst_vaapi_display_create` and what follows it. -/
def gst_vaapi_display_create_profiles (R : FormatRegistry D S) (E : Platform D)
    (priv : GstVaapiDisplayPrivate) (calls : List Call) :
    Bool × GstVaapiDisplayPrivate × List Call :=
  if E.g_new_profiles = false then (false, priv, calls) else
  let calls := calls ++ [Call.vaQueryConfigProfiles]
  if E.vaQueryConfigProfiles.1 = false then (false, priv, calls) else
  if E.g_array_new_profiles = false then (false, { priv with profiles := none }, calls) else
  gst_vaapi_display_create_image_formats R E
    { priv with profiles := some ([] ++ E.vaQueryConfigProfiles.2) } calls

/-- The part of `gst_vaapi_display_create` from `vaInitialize` on (the handle is not `NULL`):
the result, the state afterwards and the calls made. -/
def gst_vaapi_display_create_queries (R : FormatRegistry D S) (E : Platform D)
    (priv : GstVaapiDisplayPrivate) (calls : List Call) :
    Bool × GstVaapiDisplayPrivate × List Call :=
  let calls := calls ++ [Call.vaInitialize]
  if E.vaInitialize = false then (false, priv, calls) else
  gst_vaapi_display_create_profiles R E priv calls

/-- The hook block at the head of `gst_vaapi_display_create`: whether the function goes on
(`false` is the `return FALSE` after a failed `open_display`), the state and the calls. -/
def gst_vaapi_display_create_hooks (E : Platform D) (priv : GstVaapiDisplayPrivate) :
    Bool × GstVaapiDisplayPrivate × List Call :=
  if priv.display = 0 ∧ priv.create_display = true then
    if E.open_display = some false then (false, priv, [Call.open_display])
    else
      let calls := if E.open_display = none then [] else [Call.open_display]
      match E.get_display with
      | none => (true, priv, calls)
      | some handle => (true, { priv with display := handle }, calls ++ [Call.get_display])
  else (true, priv, [])

/-- The function `gst_vaapi_display_create`: the returned `gboolean`, the state afterwards
and the calls made. -/
def gst_vaapi_display_create (R : FormatRegistry D S) (E : Platform D)
    (priv : GstVaapiDisplayPrivate) : Bool × GstVaapiDisplayPrivate × List Call :=
  let hooks := gst_vaapi_display_create_hooks E priv
  if hooks.1 = false then (false, hooks.2.1, hooks.2.2)
  else if hooks.2.1.display = 0 then (false, hooks.2.1, hooks.2.2)
  else gst_vaapi_display_create_queries R E hooks.2.1 hooks.2.2

/-- The function `gst_vaapi_display_init`. -/
def gst_vaapi_display_init : GstVaapiDisplayPrivate :=
  { display := 0, create_display := true, profiles := none,
    image_formats := none, subpicture_formats := none }

/-- The function `gst_vaapi_display_set_property` for the property `PROP_DISPLAY`. -/
def gst_vaapi_display_set_property (priv : GstVaapiDisplayPrivate) (value : Nat) :
    GstVaapiDisplayPrivate :=
  { priv with display := value }

/-- The state in which `gst_vaapi_display_constructed` calls `gst_vaapi_display_create`. -/
def constructed_entry (priv : GstVaapiDisplayPrivate) : GstVaapiDisplayPrivate :=
  { priv with create_display := decide (priv.display = 0) }

/-- The function `gst_vaapi_display_constructed`: it sets `create_display`, calls
`gst_vaapi_display_create` and drops its result. -/
def gst_vaapi_display_constructed (R : FormatRegistry D S) (E : Platform D)
    (priv : GstVaapiDisplayPrivate) : GstVaapiDisplayPrivate × List Call :=
  (gst_vaapi_display_create R E (constructed_entry priv)).2

/-- The function `gst_vaapi_display_new_with_display(va_display)`: `g_object_new` runs
`gst_vaapi_display_init`, sets the construct-only property "display", runs
`gst_vaapi_display_constructed` and returns the object; `none` would be a `NULL` result. -/
def gst_vaapi_display_new_with_display (R : FormatRegistry D S) (E : Platform D)
    (va_display : Nat) : Option GstVaapiDisplayPrivate × List Call :=
  let r := gst_vaapi_display_constructed R E
    (gst_vaapi_display_set_property gst_vaapi_display_init va_display)
  (some r.1, r.2)

/-- The function `gst_vaapi_display_has_profile`. -/
def gst_vaapi_display_has_profile (priv : GstVaapiDisplayPrivate) (profile : Int) : Run Bool :=
  find_profile priv.profiles profile

/-- The function `gst_vaapi_display_get_image_caps`. -/
def gst_vaapi_display_get_image_caps (R : FormatRegistry D S) (E : Platform D)
    (priv : GstVaapiDisplayPrivate) : Run (Option (List S)) :=
  get_caps R E priv.image_formats

/-- The function `gst_vaapi_display_has_image_format`; a zero `format` is turned away by
`g_return_val_if_fail`. -/
def gst_vaapi_display_has_image_format (priv : GstVaapiDisplayPrivate)
    (format : GstVaapiImageFormat) : Run Bool :=
  if format = 0 then Run.ret false else find_format priv.image_formats format

/-- The function `gst_vaapi_display_get_subpicture_caps`. -/
def gst_vaapi_display_get_subpicture_caps (R : FormatRegistry D S) (E : Platform D)
    (priv : GstVaapiDisplayPrivate) : Run (Option (List S)) :=
  get_caps R E priv.subpicture_formats

/-- The function `gst_vaapi_display_has_subpicture_format`; a zero `format` is turned away
by `g_return_val_if_fail`. -/
def gst_vaapi_display_has_subpicture_format (priv : GstVaapiDisplayPrivate)
    (format : GstVaapiImageFormat) : Run Bool :=
  if format = 0 then Run.ret false else find_format priv.subpicture_formats format

/-- A platform for evaluating the discovery: no hooks, every driver call and allocation
succeeds, the driver reports two profiles, the image descriptors `image` and the
subpicture descriptors `subpicture`, and the sort routine is `insertion_sort`. -/
def demoPlatform (image subpicture : List Nat) : Platform Nat where
  open_display := none
  get_display := none
  close_display := false
  vaInitialize := true
  g_new_profiles := true
  vaQueryConfigProfiles := (true, [7, 3])
  g_array_new_profiles := true
  g_new_formats := true
  vaQueryImageFormats := (true, image)
  g_array_new_image_formats := true
  g_renew_formats_and_flags := true
  vaQuerySubpictureFormats := (true, subpicture)
  g_array_new_subpicture_formats := true
  g_array_sort := insertion_sort
  gst_caps_new_empty := true

/-- What one block of the discovery leaves behind: handle and ownership flag untouched, and
only driver calls added. -/
def BlockKeeps (priv : GstVaapiDisplayPrivate) (calls : List Call)
    (r : Bool × GstVaapiDisplayPrivate × List Call) : Prop :=
  r.2.1.display = priv.display ∧ r.2.1.create_display = priv.create_display ∧
  ∀ c ∈ r.2.2, c ∈ calls ∨ c = Call.vaInitialize ∨ c = Call.vaQueryConfigProfiles ∨
    c = Call.vaQueryImageFormats ∨ c = Call.vaQuerySubpictureFormats

/-- The image and subpicture sets of the state `priv1` come from a discovery run on the
state `priv0`: each is as it was in `priv0`, or `NULL`, or the sorted normalised list. -/
def SetsFromDiscovery (R : FormatRegistry D S) (E : Platform D)
    (priv0 priv1 : GstVaapiDisplayPrivate) : Prop :=
  (priv1.image_formats = priv0.image_formats ∨ priv1.image_formats = none ∨
    priv1.image_formats = some (E.g_array_sort (compare_yuv_formats R)
      (append_formats R [] E.vaQueryImageFormats.2))) ∧
  (priv1.subpicture_formats = priv0.subpicture_formats ∨ priv1.subpicture_formats = none ∨
    priv1.subpicture_formats = some (E.g_array_sort (compare_rgb_formats R)
      (append_formats R [] E.vaQuerySubpictureFormats.2)))

/-- A registry whose format 1 has the score `2^31`, which does not fit in a `gint`; every
other format has the score 0 and no format is YUV or RGB. -/
def wideScoreRegistry : FormatRegistry Nat Nat where
  gst_vaapi_image_format := fun d => d
  gst_vaapi_image_format_is_yuv := fun _ => false
  gst_vaapi_image_format_is_rgb := fun _ => false
  gst_vaapi_image_format_get_score := fun f => if f = 1 then 2147483648 else 0
  gst_vaapi_image_format_get_caps := fun _ => none
  GST_VAAPI_IMAGE_YV12 := 11
  GST_VAAPI_IMAGE_I420 := 12

/-- The platform `demoPlatform` with a driver whose `vaInitialize` fails. -/
def failingPlatform : Platform Nat :=
  { demoPlatform [2] [4] with vaInitialize := false }

/-! ## The normaliser -/

theorem mapped_formats_nil (R : FormatRegistry D S) : mapped_formats R [] = [] := rfl

theorem mapped_formats_cons (R : FormatRegistry D S) (d : D) (ds : List D) :
    mapped_formats R (d :: ds) =
      if R.gst_vaapi_image_format d = 0 then mapped_formats R ds
      else R.gst_vaapi_image_format d :: mapped_formats R ds := by
  unfold mapped_formats
  by_cases h : R.gst_vaapi_image_format d = 0 <;> simp [List.filter_cons, h]

theorem mem_mapped_formats (R : FormatRegistry D S) (ds : List D) (f : GstVaapiImageFormat) :
    f ∈ mapped_formats R ds ↔ f ≠ 0 ∧ ∃ d ∈ ds, R.gst_vaapi_image_format d = f := by
  unfold mapped_formats
  simp only [List.mem_filter, List.mem_map, decide_eq_true_eq]
  tauto

/-- What the loop of `append_formats` computes: the recognised formats are appended in
encounter order and the two flags record whether YV12 and I420 were among them. -/
theorem append_formats_loop_eq (R : FormatRegistry D S)
    (hne : R.GST_VAAPI_IMAGE_YV12 ≠ R.GST_VAAPI_IMAGE_I420) (ds : List D) :
    ∀ (array : List GstVaapiImageFormat) (hy hi : Bool),
      append_formats_loop R ds (array, hy, hi) =
        (array ++ mapped_formats R ds,
          hy || decide (R.GST_VAAPI_IMAGE_YV12 ∈ mapped_formats R ds),
          hi || decide (R.GST_VAAPI_IMAGE_I420 ∈ mapped_formats R ds)) := by
  induction ds with
  | nil => intro array hy hi; simp [append_formats_loop, mapped_formats_nil]
  | cons d ds ih =>
    intro array hy hi
    rw [mapped_formats_cons]
    by_cases h0 : R.gst_vaapi_image_format d = 0
    · simp only [append_formats_loop, h0, if_true]
      exact ih array hy hi
    · have key : ∀ f : GstVaapiImageFormat, f = R.gst_vaapi_image_format d →
          append_formats_loop R (d :: ds) (array, hy, hi) =
            (array ++ f :: mapped_formats R ds,
              hy || decide (R.GST_VAAPI_IMAGE_YV12 ∈ f :: mapped_formats R ds),
              hi || decide (R.GST_VAAPI_IMAGE_I420 ∈ f :: mapped_formats R ds)) := by
        intro f hf
        have hf0 : f ≠ 0 := hf ▸ h0
        simp only [append_formats_loop, ← hf, hf0, if_false]
        by_cases hY : f = R.GST_VAAPI_IMAGE_YV12
        · have hI : ¬ R.GST_VAAPI_IMAGE_I420 = f := fun h => hne (hY.symm.trans h.symm)
          rw [if_pos hY, ih]
          simp [hY.symm, hI, List.append_assoc]
        · have hY2 : ¬ R.GST_VAAPI_IMAGE_YV12 = f := fun h => hY h.symm
          rw [if_neg hY]
          by_cases hI : f = R.GST_VAAPI_IMAGE_I420
          · rw [if_pos hI, ih]
            simp [hI.symm, hY2, List.append_assoc]
          · have hI2 : ¬ R.GST_VAAPI_IMAGE_I420 = f := fun h => hI h.symm
            rw [if_neg hI, ih]
            simp [hY2, hI2, List.append_assoc]
      rw [if_neg h0]
      exact key _ rfl

/-- The closed form of `append_formats`. -/
theorem append_formats_eq (R : FormatRegistry D S)
    (hne : R.GST_VAAPI_IMAGE_YV12 ≠ R.GST_VAAPI_IMAGE_I420)
    (array : List GstVaapiImageFormat) (ds : List D) :
    append_formats R array ds =
      if R.GST_VAAPI_IMAGE_YV12 ∈ mapped_formats R ds ∧
          R.GST_VAAPI_IMAGE_I420 ∉ mapped_formats R ds then
        array ++ mapped_formats R ds ++ [R.GST_VAAPI_IMAGE_I420]
      else if R.GST_VAAPI_IMAGE_I420 ∈ mapped_formats R ds ∧
          R.GST_VAAPI_IMAGE_YV12 ∉ mapped_formats R ds then
        array ++ mapped_formats R ds ++ [R.GST_VAAPI_IMAGE_YV12]
      else array ++ mapped_formats R ds := by
  unfold append_formats
  rw [append_formats_loop_eq R hne]
  by_cases hY : R.GST_VAAPI_IMAGE_YV12 ∈ mapped_formats R ds <;>
    by_cases hI : R.GST_VAAPI_IMAGE_I420 ∈ mapped_formats R ds <;>
    simp [hY, hI]

/-! ## The sort routine and the comparators -/

theorem ordered_insert_perm {α : Type} (compare_func : α → α → Int) (a : α) (l : List α) :
    (ordered_insert compare_func a l).Perm (a :: l) := by
  induction l with
  | nil => exact List.Perm.refl _
  | cons b l ih =>
    simp only [ordered_insert]
    split
    · exact List.Perm.refl _
    · exact (List.Perm.cons b ih).trans (List.Perm.swap a b l)

theorem insertion_sort_perm {α : Type} (compare_func : α → α → Int) (l : List α) :
    (insertion_sort compare_func l).Perm l := by
  induction l with
  | nil => exact List.Perm.refl _
  | cons a l ih => exact (ordered_insert_perm compare_func a _).trans (List.Perm.cons a ih)

theorem ordered_insert_pairwise {α : Type} (compare_func : α → α → Int) (a : α) (l : List α)
    (htot : ∀ x ∈ a :: l, ∀ y ∈ a :: l, compare_func x y ≤ 0 ∨ compare_func y x ≤ 0)
    (htr : ∀ x ∈ a :: l, ∀ y ∈ a :: l, ∀ z ∈ a :: l,
      compare_func x y ≤ 0 → compare_func y z ≤ 0 → compare_func x z ≤ 0)
    (hl : l.Pairwise (fun x y => compare_func x y ≤ 0)) :
    (ordered_insert compare_func a l).Pairwise (fun x y => compare_func x y ≤ 0) := by
  induction l with
  | nil => simp [ordered_insert]
  | cons b l ih =>
    have hb : b ∈ a :: b :: l := by simp
    have ha : a ∈ a :: b :: l := by simp
    have hbl : ∀ y ∈ l, compare_func b y ≤ 0 := (List.pairwise_cons.mp hl).1
    simp only [ordered_insert]
    split
    · rename_i hab
      refine List.pairwise_cons.mpr ⟨?_, hl⟩
      intro y hy
      rcases List.mem_cons.mp hy with rfl | hy
      · exact hab
      · exact htr a ha b hb y (by simp [hy]) hab (hbl y hy)
    · rename_i hab
      have hba : compare_func b a ≤ 0 := (htot a ha b hb).resolve_left hab
      refine List.pairwise_cons.mpr ⟨?_, ?_⟩
      · intro y hy
        rcases List.mem_cons.mp ((ordered_insert_perm compare_func a l).mem_iff.mp hy) with rfl | hy
        · exact hba
        · exact hbl y hy
      · have hsub : ∀ x, x ∈ a :: l → x ∈ a :: b :: l := by
          intro x hx
          rcases List.mem_cons.mp hx with rfl | hx
          · exact ha
          · simp [hx]
        exact ih (fun x hx y hy => htot x (hsub x hx) y (hsub y hy))
          (fun x hx y hy z hz => htr x (hsub x hx) y (hsub y hy) z (hsub z hz))
          (List.pairwise_cons.mp hl).2

theorem insertion_sort_pairwise {α : Type} (compare_func : α → α → Int) (l : List α)
    (h : ConsistentOn compare_func l) :
    (insertion_sort compare_func l).Pairwise (fun x y => compare_func x y ≤ 0) := by
  induction l with
  | nil => simp [insertion_sort]
  | cons a l ih =>
    have hsub : ∀ x, x ∈ a :: insertion_sort compare_func l → x ∈ a :: l := by
      intro x hx
      rcases List.mem_cons.mp hx with rfl | hx
      · simp
      · exact List.mem_cons_of_mem _ ((insertion_sort_perm compare_func l).mem_iff.mp hx)
    have htail : ConsistentOn compare_func l :=
      ⟨fun x hx y hy => h.1 x (List.mem_cons_of_mem _ hx) y (List.mem_cons_of_mem _ hy),
       fun x hx y hy z hz => h.2 x (List.mem_cons_of_mem _ hx) y (List.mem_cons_of_mem _ hy)
          z (List.mem_cons_of_mem _ hz)⟩
    exact ordered_insert_pairwise compare_func a _
      (fun x hx y hy => h.1 x (hsub x hx) y (hsub y hy))
      (fun x hx y hy z hz => h.2 x (hsub x hx) y (hsub y hy) z (hsub z hz))
      (ih htail)

/-- The insertion sort meets the contract assumed of `g_array_sort`. -/
theorem insertion_sort_contract {α : Type} :
    GArraySortContract (insertion_sort : (α → α → Int) → List α → List α) :=
  fun compare_func l =>
    ⟨insertion_sort_perm compare_func l, insertion_sort_pairwise compare_func l⟩

theorem to_gint_of_lt (u : Nat) (h : u < 2 ^ 31) : to_gint u = (u : Int) := by
  have hmod : u % 2 ^ 32 = u := Nat.mod_eq_of_lt (by omega)
  unfold to_gint
  rw [hmod, if_pos h]

theorem wrap_gint_of_bounds (x : Int) (h1 : -2 ^ 31 ≤ x) (h2 : x < 2 ^ 31) :
    wrap_gint x = x := by
  unfold wrap_gint
  omega

/-- The comparator `compare_rgb_formats` is `compare_yuv_formats` with the RGB classification
in the place of the YUV one. -/
theorem compare_rgb_formats_eq (R : FormatRegistry D S) :
    compare_rgb_formats R =
      compare_yuv_formats
        { R with gst_vaapi_image_format_is_yuv := R.gst_vaapi_image_format_is_rgb } := rfl

/-- When both scores fit in a `gint`, `compare_yuv_formats` is not positive exactly when the
first format is the only YUV one, or both are of one family and the first score is not
greater. -/
theorem compare_yuv_formats_le_iff (R : FormatRegistry D S) (a b : GstVaapiImageFormat)
    (ha : R.gst_vaapi_image_format_get_score a < 2 ^ 31)
    (hb : R.gst_vaapi_image_format_get_score b < 2 ^ 31) :
    compare_yuv_formats R a b ≤ 0 ↔
      (R.gst_vaapi_image_format_is_yuv a = true ∧ R.gst_vaapi_image_format_is_yuv b = false) ∨
      (R.gst_vaapi_image_format_is_yuv a = R.gst_vaapi_image_format_is_yuv b ∧
        R.gst_vaapi_image_format_get_score a ≤ R.gst_vaapi_image_format_get_score b) := by
  unfold compare_yuv_formats
  rw [to_gint_of_lt _ ha, to_gint_of_lt _ hb, wrap_gint_of_bounds _ (by omega) (by omega)]
  cases hya : R.gst_vaapi_image_format_is_yuv a <;>
    cases hyb : R.gst_vaapi_image_format_is_yuv b <;> simp

theorem compare_yuv_formats_consistent (R : FormatRegistry D S) (l : List GstVaapiImageFormat)
    (hscore : ∀ f ∈ l, R.gst_vaapi_image_format_get_score f < 2 ^ 31) :
    ConsistentOn (compare_yuv_formats R) l := by
  constructor
  · intro a ha b hb
    rw [compare_yuv_formats_le_iff R a b (hscore a ha) (hscore b hb),
      compare_yuv_formats_le_iff R b a (hscore b hb) (hscore a ha)]
    cases hya : R.gst_vaapi_image_format_is_yuv a <;>
      cases hyb : R.gst_vaapi_image_format_is_yuv b <;> simp
    all_goals omega
  · intro a ha b hb c hc
    rw [compare_yuv_formats_le_iff R a b (hscore a ha) (hscore b hb),
      compare_yuv_formats_le_iff R b c (hscore b hb) (hscore c hc),
      compare_yuv_formats_le_iff R a c (hscore a ha) (hscore c hc)]
    cases hya : R.gst_vaapi_image_format_is_yuv a <;>
      cases hyb : R.gst_vaapi_image_format_is_yuv b <;>
      cases hyc : R.gst_vaapi_image_format_is_yuv c <;> simp <;> omega

/-- Every sorted rearrangement under `compare_yuv_formats` has the YUV formats first and the
scores ascending inside the YUV group and inside the other group. -/
theorem yuv_order_of_sorted (R : FormatRegistry D S) (out : List GstVaapiImageFormat)
    (hscore : ∀ f ∈ out, R.gst_vaapi_image_format_get_score f < 2 ^ 31)
    (hsorted : out.Pairwise (fun a b => compare_yuv_formats R a b ≤ 0)) :
    out.Pairwise (fun a b =>
      (R.gst_vaapi_image_format_is_yuv b = true → R.gst_vaapi_image_format_is_yuv a = true) ∧
      (R.gst_vaapi_image_format_is_yuv a = R.gst_vaapi_image_format_is_yuv b →
        R.gst_vaapi_image_format_get_score a ≤ R.gst_vaapi_image_format_get_score b)) := by
  refine List.Pairwise.imp_of_mem ?_ hsorted
  intro a b ha hb hab
  rw [compare_yuv_formats_le_iff R a b (hscore a ha) (hscore b hb)] at hab
  rcases hab with ⟨h1, h2⟩ | ⟨h1, h2⟩
  · exact ⟨fun _ => h1, fun h => by rw [h1, h2] at h; cases h⟩
  · exact ⟨fun h => by rw [h1]; exact h, fun _ => h2⟩

/-- What `g_array_sort` with `compare_yuv_formats` yields on a list whose scores fit in a
`gint`. -/
theorem sort_yuv_order (R : FormatRegistry D S)
    (sort : (GstVaapiImageFormat → GstVaapiImageFormat → Int) →
      List GstVaapiImageFormat → List GstVaapiImageFormat)
    (hsort : GArraySortContract sort) (l : List GstVaapiImageFormat)
    (hscore : ∀ f ∈ l, R.gst_vaapi_image_format_get_score f < 2 ^ 31) :
    (sort (compare_yuv_formats R) l).Perm l ∧
    (sort (compare_yuv_formats R) l).Pairwise (fun a b =>
      (R.gst_vaapi_image_format_is_yuv b = true → R.gst_vaapi_image_format_is_yuv a = true) ∧
      (R.gst_vaapi_image_format_is_yuv a = R.gst_vaapi_image_format_is_yuv b →
        R.gst_vaapi_image_format_get_score a ≤ R.gst_vaapi_image_format_get_score b)) := by
  have hc := hsort (compare_yuv_formats R) l
  refine ⟨hc.1, yuv_order_of_sorted R _ ?_ (hc.2 (compare_yuv_formats_consistent R l hscore))⟩
  intro f hf
  exact hscore f (hc.1.mem_iff.mp hf)

/-! ## The discovery sequence -/

theorem find_format_loop_eq (format : GstVaapiImageFormat) (l : List GstVaapiImageFormat) :
    find_format_loop format l = decide (format ∈ l) := by
  induction l with
  | nil => simp [find_format_loop]
  | cons f l ih =>
    by_cases h : f = format
    · simp [find_format_loop, h]
    · have h2 : ¬ format = f := fun e => h e.symm
      simp [find_format_loop, h, h2, ih]

theorem create_subpicture_formats_keeps (R : FormatRegistry D S) (E : Platform D)
    (priv : GstVaapiDisplayPrivate) (calls : List Call) :
    BlockKeeps priv calls (gst_vaapi_display_create_subpicture_formats R E priv calls) := by
  unfold gst_vaapi_display_create_subpicture_formats BlockKeeps
  split_ifs <;> refine ⟨rfl, rfl, ?_⟩ <;> intro c <;>
    simp only [List.mem_append, List.mem_singleton] <;> tauto

theorem create_image_formats_keeps (R : FormatRegistry D S) (E : Platform D)
    (priv : GstVaapiDisplayPrivate) (calls : List Call) :
    BlockKeeps priv calls (gst_vaapi_display_create_image_formats R E priv calls) := by
  unfold gst_vaapi_display_create_image_formats
  split_ifs
  · exact ⟨rfl, rfl, fun c hc => Or.inl hc⟩
  · refine ⟨rfl, rfl, ?_⟩
    intro c
    simp only [List.mem_append, List.mem_singleton]
    tauto
  · refine ⟨rfl, rfl, ?_⟩
    intro c
    simp only [List.mem_append, List.mem_singleton]
    tauto
  · obtain ⟨h1, h2, h3⟩ := create_subpicture_formats_keeps R E
      { priv with image_formats := some (E.g_array_sort (compare_yuv_formats R)
          (append_formats R [] E.vaQueryImageFormats.2)) }
      (calls ++ [Call.vaQueryImageFormats])
    refine ⟨h1, h2, ?_⟩
    intro c hc
    have := h3 c hc
    simp only [List.mem_append, List.mem_singleton] at this
    tauto

theorem create_profiles_keeps (R : FormatRegistry D S) (E : Platform D)
    (priv : GstVaapiDisplayPrivate) (calls : List Call) :
    BlockKeeps priv calls (gst_vaapi_display_create_profiles R E priv calls) := by
  unfold gst_vaapi_display_create_profiles
  split_ifs
  · exact ⟨rfl, rfl, fun c hc => Or.inl hc⟩
  · refine ⟨rfl, rfl, ?_⟩
    intro c
    simp only [List.mem_append, List.mem_singleton]
    tauto
  · refine ⟨rfl, rfl, ?_⟩
    intro c
    simp only [List.mem_append, List.mem_singleton]
    tauto
  · obtain ⟨h1, h2, h3⟩ := create_image_formats_keeps R E
      { priv with profiles := some ([] ++ E.vaQueryConfigProfiles.2) }
      (calls ++ [Call.vaQueryConfigProfiles])
    refine ⟨h1, h2, ?_⟩
    intro c hc
    have := h3 c hc
    simp only [List.mem_append, List.mem_singleton] at this
    tauto

/-- The state after the part of `gst_vaapi_display_create` that follows the handle lookup
keeps the handle and the ownership flag, and the calls made there are driver calls only. -/
theorem create_queries_keeps (R : FormatRegistry D S) (E : Platform D)
    (priv : GstVaapiDisplayPrivate) (calls : List Call) :
    BlockKeeps priv calls (gst_vaapi_display_create_queries R E priv calls) := by
  unfold gst_vaapi_display_create_queries
  split_ifs
  · refine ⟨rfl, rfl, ?_⟩
    intro c
    simp only [List.mem_append, List.mem_singleton]
    tauto
  · obtain ⟨h1, h2, h3⟩ := create_profiles_keeps R E priv (calls ++ [Call.vaInitialize])
    refine ⟨h1, h2, ?_⟩
    intro c hc
    have := h3 c hc
    simp only [List.mem_append, List.mem_singleton] at this
    tauto

theorem create_subpicture_formats_success (R : FormatRegistry D S) (E : Platform D)
    (priv : GstVaapiDisplayPrivate) (calls : List Call)
    (h : (gst_vaapi_display_create_subpicture_formats R E priv calls).1 = true) :
    (gst_vaapi_display_create_subpicture_formats R E priv calls).2.1 =
      { priv with subpicture_formats := some (E.g_array_sort (compare_rgb_formats R)
          (append_formats R [] E.vaQuerySubpictureFormats.2)) } := by
  unfold gst_vaapi_display_create_subpicture_formats at h ⊢
  split_ifs at h ⊢
  rfl

theorem create_image_formats_success (R : FormatRegistry D S) (E : Platform D)
    (priv : GstVaapiDisplayPrivate) (calls : List Call)
    (h : (gst_vaapi_display_create_image_formats R E priv calls).1 = true) :
    (gst_vaapi_display_create_image_formats R E priv calls).2.1 =
      { priv with
        image_formats := some (E.g_array_sort (compare_yuv_formats R)
          (append_formats R [] E.vaQueryImageFormats.2))
        subpicture_formats := some (E.g_array_sort (compare_rgb_formats R)
          (append_formats R [] E.vaQuerySubpictureFormats.2)) } := by
  unfold gst_vaapi_display_create_image_formats at h ⊢
  split_ifs at h ⊢
  exact create_subpicture_formats_success R E _ _ h

theorem create_profiles_success (R : FormatRegistry D S) (E : Platform D)
    (priv : GstVaapiDisplayPrivate) (calls : List Call)
    (h : (gst_vaapi_display_create_profiles R E priv calls).1 = true) :
    (gst_vaapi_display_create_profiles R E priv calls).2.1 =
      { priv with
        profiles := some E.vaQueryConfigProfiles.2
        image_formats := some (E.g_array_sort (compare_yuv_formats R)
          (append_formats R [] E.vaQueryImageFormats.2))
        subpicture_formats := some (E.g_array_sort (compare_rgb_formats R)
          (append_formats R [] E.vaQuerySubpictureFormats.2)) } := by
  unfold gst_vaapi_display_create_profiles at h ⊢
  split_ifs at h ⊢
  exact create_image_formats_success R E _ _ h

/-- A successful run of the queries stores the three sets. -/
theorem create_queries_success (R : FormatRegistry D S) (E : Platform D)
    (priv : GstVaapiDisplayPrivate) (calls : List Call)
    (h : (gst_vaapi_display_create_queries R E priv calls).1 = true) :
    (gst_vaapi_display_create_queries R E priv calls).2.1.profiles =
      some E.vaQueryConfigProfiles.2 ∧
    (gst_vaapi_display_create_queries R E priv calls).2.1.image_formats =
      some (E.g_array_sort (compare_yuv_formats R)
        (append_formats R [] E.vaQueryImageFormats.2)) ∧
    (gst_vaapi_display_create_queries R E priv calls).2.1.subpicture_formats =
      some (E.g_array_sort (compare_rgb_formats R)
        (append_formats R [] E.vaQuerySubpictureFormats.2)) := by
  unfold gst_vaapi_display_create_queries at h ⊢
  split_ifs at h ⊢
  rw [create_profiles_success R E _ _ h]
  exact ⟨rfl, rfl, rfl⟩

/-- The hook block changes the handle only, and calls the two hooks only. -/
theorem create_hooks_keeps (E : Platform D) (priv : GstVaapiDisplayPrivate) :
    (gst_vaapi_display_create_hooks E priv).2.1.create_display = priv.create_display ∧
    (gst_vaapi_display_create_hooks E priv).2.1.profiles = priv.profiles ∧
    (gst_vaapi_display_create_hooks E priv).2.1.image_formats = priv.image_formats ∧
    (gst_vaapi_display_create_hooks E priv).2.1.subpicture_formats = priv.subpicture_formats ∧
    ∀ c ∈ (gst_vaapi_display_create_hooks E priv).2.2,
      c = Call.open_display ∨ c = Call.get_display := by
  unfold gst_vaapi_display_create_hooks
  by_cases h1 : priv.display = 0 ∧ priv.create_display = true
  · rw [if_pos h1]
    by_cases h2 : E.open_display = some false
    · rw [if_pos h2]
      exact ⟨rfl, rfl, rfl, rfl, by simp⟩
    · rw [if_neg h2]
      cases hg : E.get_display <;> by_cases h3 : E.open_display = none <;> simp [h3]
  · rw [if_neg h1]
    exact ⟨rfl, rfl, rfl, rfl, by simp⟩

/-- With a handle that is not `NULL`, or without ownership, the hook block does nothing. -/
theorem create_hooks_skip (E : Platform D) (priv : GstVaapiDisplayPrivate)
    (h : priv.display ≠ 0 ∨ priv.create_display = false) :
    gst_vaapi_display_create_hooks E priv = (true, priv, []) := by
  unfold gst_vaapi_display_create_hooks
  rw [if_neg]
  rintro ⟨h1, h2⟩
  rcases h with h | h
  · exact h h1
  · rw [h] at h2; cases h2

/-- The handle lookup of `gst_vaapi_display_create` either fails, leaving the three sets as
they were, or hands over to the queries with a handle that is not `NULL`. -/
theorem create_cases (R : FormatRegistry D S) (E : Platform D)
    (priv : GstVaapiDisplayPrivate) :
    ((gst_vaapi_display_create R E priv).1 = false ∧
      (gst_vaapi_display_create R E priv).2.1.profiles = priv.profiles ∧
      (gst_vaapi_display_create R E priv).2.1.image_formats = priv.image_formats ∧
      (gst_vaapi_display_create R E priv).2.1.subpicture_formats = priv.subpicture_formats) ∨
    ∃ (priv1 : GstVaapiDisplayPrivate) (calls : List Call),
      gst_vaapi_display_create R E priv =
        gst_vaapi_display_create_queries R E priv1 calls ∧
      priv1.display ≠ 0 ∧ priv1.create_display = priv.create_display ∧
      priv1.profiles = priv.profiles ∧ priv1.image_formats = priv.image_formats ∧
      priv1.subpicture_formats = priv.subpicture_formats := by
  obtain ⟨k1, k2, k3, k4, _⟩ := create_hooks_keeps E priv
  unfold gst_vaapi_display_create
  simp only []
  split_ifs with h1 h2
  · exact Or.inl ⟨rfl, k2, k3, k4⟩
  · exact Or.inl ⟨rfl, k2, k3, k4⟩
  · exact Or.inr ⟨_, _, rfl, h2, k1, k2, k3, k4⟩

/-- A successful `gst_vaapi_display_create` stores the reported profiles, the sorted
normalised image formats and the sorted normalised subpicture formats. -/
theorem create_success (R : FormatRegistry D S) (E : Platform D)
    (priv : GstVaapiDisplayPrivate) (h : (gst_vaapi_display_create R E priv).1 = true) :
    (gst_vaapi_display_create R E priv).2.1.profiles = some E.vaQueryConfigProfiles.2 ∧
    (gst_vaapi_display_create R E priv).2.1.image_formats =
      some (E.g_array_sort (compare_yuv_formats R)
        (append_formats R [] E.vaQueryImageFormats.2)) ∧
    (gst_vaapi_display_create R E priv).2.1.subpicture_formats =
      some (E.g_array_sort (compare_rgb_formats R)
        (append_formats R [] E.vaQuerySubpictureFormats.2)) := by
  rcases create_cases R E priv with ⟨hf, _⟩ | ⟨priv1, calls, heq, _⟩
  · rw [hf] at h; cases h
  · rw [heq] at h ⊢
    exact create_queries_success R E priv1 calls h

/-- Membership of the two siblings in what `append_formats` produces from an empty array. -/
theorem sibling_mem_append_formats (R : FormatRegistry D S)
    (hne : R.GST_VAAPI_IMAGE_YV12 ≠ R.GST_VAAPI_IMAGE_I420) (ds : List D) :
    (R.GST_VAAPI_IMAGE_YV12 ∈ append_formats R [] ds ↔
      (R.GST_VAAPI_IMAGE_YV12 ∈ mapped_formats R ds ∨
        R.GST_VAAPI_IMAGE_I420 ∈ mapped_formats R ds)) ∧
    (R.GST_VAAPI_IMAGE_I420 ∈ append_formats R [] ds ↔
      (R.GST_VAAPI_IMAGE_YV12 ∈ mapped_formats R ds ∨
        R.GST_VAAPI_IMAGE_I420 ∈ mapped_formats R ds)) := by
  rw [append_formats_eq R hne]
  by_cases hY : R.GST_VAAPI_IMAGE_YV12 ∈ mapped_formats R ds <;>
    by_cases hI : R.GST_VAAPI_IMAGE_I420 ∈ mapped_formats R ds <;>
    simp [hY, hI]

/-- After a successful discovery `gst_vaapi_display_has_image_format` decides membership in
the normalised image list. -/
theorem has_image_format_of_success (R : FormatRegistry D S) (E : Platform D)
    (hsort : GArraySortContract E.g_array_sort)
    (priv : GstVaapiDisplayPrivate) (h : (gst_vaapi_display_create R E priv).1 = true)
    (format : GstVaapiImageFormat) (hformat : format ≠ 0) :
    gst_vaapi_display_has_image_format (gst_vaapi_display_create R E priv).2.1 format =
      Run.ret (decide (format ∈ append_formats R [] E.vaQueryImageFormats.2)) := by
  unfold gst_vaapi_display_has_image_format
  rw [if_neg hformat, (create_success R E priv h).2.1]
  simp only [find_format, find_format_loop_eq]
  congr 1
  exact decide_eq_decide.mpr (hsort _ _).1.mem_iff

/-- When the recognised formats are pairwise distinct, so is what `append_formats` produces
from an empty array. -/
theorem append_formats_nodup (R : FormatRegistry D S)
    (hne : R.GST_VAAPI_IMAGE_YV12 ≠ R.GST_VAAPI_IMAGE_I420) (ds : List D)
    (h : (mapped_formats R ds).Nodup) : (append_formats R [] ds).Nodup := by
  rw [append_formats_eq R hne]
  split_ifs with h1 h2
  · simpa [List.nodup_append] using ⟨h, h1.2⟩
  · simpa [List.nodup_append] using ⟨h, h2.2⟩
  · simpa using h

theorem create_subpicture_formats_failure (R : FormatRegistry D S) (E : Platform D)
    (priv : GstVaapiDisplayPrivate) (calls : List Call)
    (hnone : priv.subpicture_formats = none)
    (h : (gst_vaapi_display_create_subpicture_formats R E priv calls).1 = false) :
    (gst_vaapi_display_create_subpicture_formats R E priv calls).2.1.subpicture_formats =
      none := by
  unfold gst_vaapi_display_create_subpicture_formats at h ⊢
  split_ifs at h ⊢
  · exact hnone
  · exact hnone
  · rfl

theorem create_image_formats_failure (R : FormatRegistry D S) (E : Platform D)
    (priv : GstVaapiDisplayPrivate) (calls : List Call)
    (hnone : priv.subpicture_formats = none)
    (h : (gst_vaapi_display_create_image_formats R E priv calls).1 = false) :
    (gst_vaapi_display_create_image_formats R E priv calls).2.1.subpicture_formats = none := by
  unfold gst_vaapi_display_create_image_formats at h ⊢
  split_ifs at h ⊢
  · exact hnone
  · exact hnone
  · exact hnone
  · exact create_subpicture_formats_failure R E _ _ hnone h

theorem create_profiles_failure (R : FormatRegistry D S) (E : Platform D)
    (priv : GstVaapiDisplayPrivate) (calls : List Call)
    (hnone : priv.subpicture_formats = none)
    (h : (gst_vaapi_display_create_profiles R E priv calls).1 = false) :
    (gst_vaapi_display_create_profiles R E priv calls).2.1.subpicture_formats = none := by
  unfold gst_vaapi_display_create_profiles at h ⊢
  split_ifs at h ⊢
  · exact hnone
  · exact hnone
  · exact hnone
  · exact create_image_formats_failure R E _ _ hnone h

/-- A failed `gst_vaapi_display_create` on a session whose subpicture set is unset leaves it
unset. -/
theorem create_failure_subpicture (R : FormatRegistry D S) (E : Platform D)
    (priv : GstVaapiDisplayPrivate) (hnone : priv.subpicture_formats = none)
    (h : (gst_vaapi_display_create R E priv).1 = false) :
    (gst_vaapi_display_create R E priv).2.1.subpicture_formats = none := by
  rcases create_cases R E priv with ⟨_, _, _, k⟩ | ⟨priv1, calls, heq, _, _, _, _, k⟩
  · rw [k]; exact hnone
  · rw [heq] at h ⊢
    unfold gst_vaapi_display_create_queries at h ⊢
    split_ifs at h ⊢
    · rw [k]; exact hnone
    · exact create_profiles_failure R E _ _ (k.trans hnone) h

/-- C1 (sibling synthesis): when the recognised formats of the driver descriptors include
exactly one of YV12 and I420, `append_formats` appends the recognised formats followed by the
missing sibling as the last element; the appended formats then contain both YV12 and I420 and
the sibling occurs in them exactly once. -/
theorem append_formats_sibling_synthesis (R : FormatRegistry D S)
    (hne : R.GST_VAAPI_IMAGE_YV12 ≠ R.GST_VAAPI_IMAGE_I420)
    (array : List GstVaapiImageFormat) (va_formats : List D)
    (h : (R.GST_VAAPI_IMAGE_YV12 ∈ mapped_formats R va_formats ∧
            R.GST_VAAPI_IMAGE_I420 ∉ mapped_formats R va_formats) ∨
         (R.GST_VAAPI_IMAGE_I420 ∈ mapped_formats R va_formats ∧
            R.GST_VAAPI_IMAGE_YV12 ∉ mapped_formats R va_formats)) :
    ∃ sibling : GstVaapiImageFormat,
      (sibling = if R.GST_VAAPI_IMAGE_YV12 ∈ mapped_formats R va_formats
        then R.GST_VAAPI_IMAGE_I420 else R.GST_VAAPI_IMAGE_YV12) ∧
      append_formats R array va_formats = array ++ (mapped_formats R va_formats ++ [sibling]) ∧
      R.GST_VAAPI_IMAGE_YV12 ∈ mapped_formats R va_formats ++ [sibling] ∧
      R.GST_VAAPI_IMAGE_I420 ∈ mapped_formats R va_formats ++ [sibling] ∧
      (mapped_formats R va_formats ++ [sibling]).count sibling = 1 := by
  rw [append_formats_eq R hne]
  rcases h with ⟨hY, hI⟩ | ⟨hI, hY⟩
  · refine ⟨R.GST_VAAPI_IMAGE_I420, by simp [hY], ?_, ?_, ?_, ?_⟩
    · simp [hY, hI]
    · simp [hY]
    · simp
    · simp [List.count_append, List.count_eq_zero_of_not_mem hI]
  · refine ⟨R.GST_VAAPI_IMAGE_YV12, by simp [hY], ?_, ?_, ?_, ?_⟩
    · simp [hY, hI]
    · simp
    · simp [hI]
    · simp [List.count_append, List.count_eq_zero_of_not_mem hY]

/-- C1 at a concrete input: the driver reports a YV12 descriptor, an RGB descriptor and an
unknown one; I420 is appended last. -/
theorem append_formats_sibling_synthesis_witness :
    append_formats demoRegistry [] [2, 4, 9] = [11, 20, 12] ∧
    ∃ sibling : GstVaapiImageFormat,
      (sibling = if demoRegistry.GST_VAAPI_IMAGE_YV12 ∈ mapped_formats demoRegistry [2, 4, 9]
        then demoRegistry.GST_VAAPI_IMAGE_I420 else demoRegistry.GST_VAAPI_IMAGE_YV12) ∧
      append_formats demoRegistry [] [2, 4, 9] =
        [] ++ (mapped_formats demoRegistry [2, 4, 9] ++ [sibling]) ∧
      demoRegistry.GST_VAAPI_IMAGE_YV12 ∈ mapped_formats demoRegistry [2, 4, 9] ++ [sibling] ∧
      demoRegistry.GST_VAAPI_IMAGE_I420 ∈ mapped_formats demoRegistry [2, 4, 9] ++ [sibling] ∧
      (mapped_formats demoRegistry [2, 4, 9] ++ [sibling]).count sibling = 1 :=
  ⟨by decide,
    append_formats_sibling_synthesis demoRegistry (by decide) [] [2, 4, 9]
      (Or.inl (by decide))⟩

/-- C3 (no synthesis): when the recognised formats of the driver descriptors contain neither
or both of YV12 and I420, `append_formats` appends exactly the recognised formats, in
encounter order, unrecognised descriptors skipped and duplicates kept. -/
theorem append_formats_no_synthesis (R : FormatRegistry D S)
    (hne : R.GST_VAAPI_IMAGE_YV12 ≠ R.GST_VAAPI_IMAGE_I420)
    (array : List GstVaapiImageFormat) (va_formats : List D)
    (h : R.GST_VAAPI_IMAGE_YV12 ∈ mapped_formats R va_formats ↔
         R.GST_VAAPI_IMAGE_I420 ∈ mapped_formats R va_formats) :
    append_formats R array va_formats =
      array ++ (va_formats.map R.gst_vaapi_image_format).filter (fun format => format ≠ 0) := by
  rw [append_formats_eq R hne]
  by_cases hY : R.GST_VAAPI_IMAGE_YV12 ∈ mapped_formats R va_formats
  · have hI := h.mp hY
    rw [if_neg (fun hc => hc.2 hI), if_neg (fun hc => hc.2 hY)]
    rfl
  · have hI : R.GST_VAAPI_IMAGE_I420 ∉ mapped_formats R va_formats := fun hI => hY (h.mpr hI)
    rw [if_neg (fun hc => hY hc.1), if_neg (fun hc => hI hc.1)]
    rfl

/-- C3 at a concrete input: both siblings reported, with a duplicate and an unknown code. -/
theorem append_formats_no_synthesis_witness :
    append_formats demoRegistry [20] [3, 2, 9, 4, 3] = [20, 12, 11, 20, 12] :=
  (append_formats_no_synthesis demoRegistry (by decide) [20] [3, 2, 9, 4, 3]
    (by decide)).trans (by decide)

/-- C4 (image-format ordering): for every format list, the result of `g_array_sort` with
`compare_yuv_formats` is a permutation of the list in which every YUV entry precedes every
non-YUV entry and, inside each of the two groups, the scores are non-decreasing. The sort
routine is any routine that meets `GArraySortContract`; the registry's scores fit in a
`gint`. -/
theorem image_formats_sorted_yuv_first (R : FormatRegistry D S)
    (sort : (GstVaapiImageFormat → GstVaapiImageFormat → Int) →
      List GstVaapiImageFormat → List GstVaapiImageFormat)
    (hsort : GArraySortContract sort)
    (hscore : ∀ f, R.gst_vaapi_image_format_get_score f < 2 ^ 31)
    (l : List GstVaapiImageFormat) :
    (sort (compare_yuv_formats R) l).Perm l ∧
    (sort (compare_yuv_formats R) l).Pairwise (fun a b =>
      (R.gst_vaapi_image_format_is_yuv b = true → R.gst_vaapi_image_format_is_yuv a = true) ∧
      (R.gst_vaapi_image_format_is_yuv a = R.gst_vaapi_image_format_is_yuv b →
        R.gst_vaapi_image_format_get_score a ≤ R.gst_vaapi_image_format_get_score b)) :=
  sort_yuv_order R sort hsort l (fun f _ => hscore f)

theorem demoRegistry_score_lt (f : GstVaapiImageFormat) :
    demoRegistry.gst_vaapi_image_format_get_score f < 2 ^ 31 := by
  simp only [demoRegistry]
  split_ifs <;> norm_num

/-- C4 at a concrete input: an unsorted image list with a duplicate and an unknown format. -/
theorem image_formats_sorted_yuv_first_witness :
    insertion_sort (compare_yuv_formats demoRegistry) [21, 12, 20, 10, 12, 11] =
      [10, 11, 12, 12, 20, 21] ∧
    (insertion_sort (compare_yuv_formats demoRegistry) [21, 12, 20, 10, 12, 11]).Perm
      [21, 12, 20, 10, 12, 11] ∧
    (insertion_sort (compare_yuv_formats demoRegistry) [21, 12, 20, 10, 12, 11]).Pairwise
      (fun a b =>
        (demoRegistry.gst_vaapi_image_format_is_yuv b = true →
          demoRegistry.gst_vaapi_image_format_is_yuv a = true) ∧
        (demoRegistry.gst_vaapi_image_format_is_yuv a =
            demoRegistry.gst_vaapi_image_format_is_yuv b →
          demoRegistry.gst_vaapi_image_format_get_score a ≤
            demoRegistry.gst_vaapi_image_format_get_score b)) :=
  ⟨by decide,
    image_formats_sorted_yuv_first demoRegistry insertion_sort insertion_sort_contract
      demoRegistry_score_lt [21, 12, 20, 10, 12, 11]⟩

/-- C5 (subpicture-format ordering): for every format list, the result of `g_array_sort` with
`compare_rgb_formats` is a permutation of the list in which every RGB entry precedes every
non-RGB entry, with the score ascending as the secondary key inside the RGB group and inside
the non-RGB group. The sort routine is any routine that meets `GArraySortContract`; the
registry's scores fit in a `gint`. -/
theorem subpicture_formats_sorted_rgb_first (R : FormatRegistry D S)
    (sort : (GstVaapiImageFormat → GstVaapiImageFormat → Int) →
      List GstVaapiImageFormat → List GstVaapiImageFormat)
    (hsort : GArraySortContract sort)
    (hscore : ∀ f, R.gst_vaapi_image_format_get_score f < 2 ^ 31)
    (l : List GstVaapiImageFormat) :
    (sort (compare_rgb_formats R) l).Perm l ∧
    (sort (compare_rgb_formats R) l).Pairwise (fun a b =>
      (R.gst_vaapi_image_format_is_rgb b = true → R.gst_vaapi_image_format_is_rgb a = true) ∧
      (R.gst_vaapi_image_format_is_rgb a = R.gst_vaapi_image_format_is_rgb b →
        R.gst_vaapi_image_format_get_score a ≤ R.gst_vaapi_image_format_get_score b)) := by
  rw [compare_rgb_formats_eq]
  exact sort_yuv_order
    { R with gst_vaapi_image_format_is_yuv := R.gst_vaapi_image_format_is_rgb }
    sort hsort l (fun f _ => hscore f)

/-- C5 at a concrete input: an unsorted subpicture list; format 30 is of neither family. -/
theorem subpicture_formats_sorted_rgb_first_witness :
    insertion_sort (compare_rgb_formats demoRegistry) [12, 21, 30, 20, 10, 21] =
      [20, 21, 21, 30, 10, 12] ∧
    (insertion_sort (compare_rgb_formats demoRegistry) [12, 21, 30, 20, 10, 21]).Perm
      [12, 21, 30, 20, 10, 21] ∧
    (insertion_sort (compare_rgb_formats demoRegistry) [12, 21, 30, 20, 10, 21]).Pairwise
      (fun a b =>
        (demoRegistry.gst_vaapi_image_format_is_rgb b = true →
          demoRegistry.gst_vaapi_image_format_is_rgb a = true) ∧
        (demoRegistry.gst_vaapi_image_format_is_rgb a =
            demoRegistry.gst_vaapi_image_format_is_rgb b →
          demoRegistry.gst_vaapi_image_format_get_score a ≤
            demoRegistry.gst_vaapi_image_format_get_score b)) :=
  ⟨by decide,
    subpicture_formats_sorted_rgb_first demoRegistry insertion_sort insertion_sort_contract
      demoRegistry_score_lt [12, 21, 30, 20, 10, 21]⟩

/-- C2 (siblings present together): after a successful `gst_vaapi_display_create`,
`gst_vaapi_display_has_image_format` gives the same answer for YV12 and for I420, and
answers true for both as soon as one driver-reported image descriptor maps to YV12 or to
I420. -/
theorem yv12_i420_present_together (R : FormatRegistry D S) (E : Platform D)
    (hsort : GArraySortContract E.g_array_sort)
    (hne : R.GST_VAAPI_IMAGE_YV12 ≠ R.GST_VAAPI_IMAGE_I420)
    (hY : R.GST_VAAPI_IMAGE_YV12 ≠ 0) (hI : R.GST_VAAPI_IMAGE_I420 ≠ 0)
    (priv : GstVaapiDisplayPrivate) (hok : (gst_vaapi_display_create R E priv).1 = true) :
    (∃ b : Bool,
      gst_vaapi_display_has_image_format (gst_vaapi_display_create R E priv).2.1
        R.GST_VAAPI_IMAGE_YV12 = Run.ret b ∧
      gst_vaapi_display_has_image_format (gst_vaapi_display_create R E priv).2.1
        R.GST_VAAPI_IMAGE_I420 = Run.ret b) ∧
    ((∃ d ∈ E.vaQueryImageFormats.2,
        R.gst_vaapi_image_format d = R.GST_VAAPI_IMAGE_YV12 ∨
        R.gst_vaapi_image_format d = R.GST_VAAPI_IMAGE_I420) →
      gst_vaapi_display_has_image_format (gst_vaapi_display_create R E priv).2.1
        R.GST_VAAPI_IMAGE_YV12 = Run.ret true ∧
      gst_vaapi_display_has_image_format (gst_vaapi_display_create R E priv).2.1
        R.GST_VAAPI_IMAGE_I420 = Run.ret true) := by
  rw [has_image_format_of_success R E hsort priv hok _ hY,
    has_image_format_of_success R E hsort priv hok _ hI]
  obtain ⟨m1, m2⟩ := sibling_mem_append_formats R hne E.vaQueryImageFormats.2
  constructor
  · exact ⟨_, rfl, congrArg Run.ret (decide_eq_decide.mpr (m2.trans m1.symm))⟩
  · rintro ⟨d, hd, hmap⟩
    have hmem : R.GST_VAAPI_IMAGE_YV12 ∈ mapped_formats R E.vaQueryImageFormats.2 ∨
        R.GST_VAAPI_IMAGE_I420 ∈ mapped_formats R E.vaQueryImageFormats.2 := by
      rcases hmap with hmap | hmap
      · exact Or.inl ((mem_mapped_formats R _ _).mpr ⟨hY, d, hd, hmap⟩)
      · exact Or.inr ((mem_mapped_formats R _ _).mpr ⟨hI, d, hd, hmap⟩)
    exact ⟨congrArg Run.ret (decide_eq_true (m1.mpr hmem)),
      congrArg Run.ret (decide_eq_true (m2.mpr hmem))⟩

/-- C2 at a concrete input: the driver reports a YV12 descriptor and an RGB descriptor as image
formats; the session answers true for I420 as well. -/
theorem yv12_i420_present_together_witness :
    (gst_vaapi_display_create demoRegistry (demoPlatform [2, 4] [4])
      (constructed_entry (gst_vaapi_display_set_property gst_vaapi_display_init 1))).2.1.image_formats
      = some [11, 12, 20] ∧
    gst_vaapi_display_has_image_format
      (gst_vaapi_display_create demoRegistry (demoPlatform [2, 4] [4])
        (constructed_entry (gst_vaapi_display_set_property gst_vaapi_display_init 1))).2.1
      demoRegistry.GST_VAAPI_IMAGE_I420 = Run.ret true :=
  ⟨by decide,
    ((yv12_i420_present_together demoRegistry (demoPlatform [2, 4] [4])
      insertion_sort_contract (by decide) (by decide) (by decide)
      (constructed_entry (gst_vaapi_display_set_property gst_vaapi_display_init 1))
      (by decide)).2 ⟨2, by decide, Or.inl (by decide)⟩).2⟩

/-- C6, as stated, fails: a driver that reports the NV12 descriptor twice gets an image set
in which NV12 appears twice, after a successful discovery. -/
theorem capability_set_duplicate_counterexample :
    (gst_vaapi_display_create demoRegistry (demoPlatform [1, 1] [4])
      (constructed_entry (gst_vaapi_display_set_property gst_vaapi_display_init 1))).1 = true ∧
    (gst_vaapi_display_create demoRegistry (demoPlatform [1, 1] [4])
      (constructed_entry (gst_vaapi_display_set_property gst_vaapi_display_init 1))).2.1.image_formats
      = some [10, 10] ∧
    ¬ ([10, 10] : List GstVaapiImageFormat).Nodup := by
  decide

/-- C6, amended: after a successful discovery each stored set is a rearrangement of what
`append_formats` produced (driver duplicates are kept), and it contains each format at most
once whenever the recognised formats of the reported descriptors are pairwise distinct. -/
theorem capability_sets_nodup_of_distinct_reports (R : FormatRegistry D S) (E : Platform D)
    (hsort : GArraySortContract E.g_array_sort)
    (hne : R.GST_VAAPI_IMAGE_YV12 ≠ R.GST_VAAPI_IMAGE_I420)
    (priv : GstVaapiDisplayPrivate) (hok : (gst_vaapi_display_create R E priv).1 = true) :
    (∃ l, (gst_vaapi_display_create R E priv).2.1.image_formats = some l ∧
      l.Perm (append_formats R [] E.vaQueryImageFormats.2) ∧
      ((mapped_formats R E.vaQueryImageFormats.2).Nodup → l.Nodup)) ∧
    (∃ l, (gst_vaapi_display_create R E priv).2.1.subpicture_formats = some l ∧
      l.Perm (append_formats R [] E.vaQuerySubpictureFormats.2) ∧
      ((mapped_formats R E.vaQuerySubpictureFormats.2).Nodup → l.Nodup)) := by
  obtain ⟨_, h2, h3⟩ := create_success R E priv hok
  refine ⟨⟨_, h2, (hsort _ _).1, fun hnd => ?_⟩, ⟨_, h3, (hsort _ _).1, fun hnd => ?_⟩⟩
  · exact (hsort _ _).1.nodup_iff.mpr (append_formats_nodup R hne _ hnd)
  · exact (hsort _ _).1.nodup_iff.mpr (append_formats_nodup R hne _ hnd)

/-- C6 amended, at a concrete input: distinct reports (YV12 and one RGB format) give an image
set without repetition, the synthesised I420 included. -/
theorem capability_sets_nodup_of_distinct_reports_witness :
    ∃ l, (gst_vaapi_display_create demoRegistry (demoPlatform [4, 2] [5, 4])
        (constructed_entry (gst_vaapi_display_set_property gst_vaapi_display_init 1))).2.1.image_formats
        = some l ∧ l.Nodup :=
  match (capability_sets_nodup_of_distinct_reports demoRegistry (demoPlatform [4, 2] [5, 4])
      insertion_sort_contract (by decide)
      (constructed_entry (gst_vaapi_display_set_property gst_vaapi_display_init 1))
      (by decide)).1 with
  | ⟨l, hl, _, hnd⟩ => ⟨l, hl, hnd (by decide)⟩

/-- C7, as stated, fails: with a handle whose `vaInitialize` fails,
`gst_vaapi_display_create` returns FALSE and `gst_vaapi_display_new_with_display` still
returns a session object. -/
theorem new_with_display_failure_counterexample :
    (gst_vaapi_display_create demoRegistry failingPlatform
      (constructed_entry (gst_vaapi_display_set_property gst_vaapi_display_init 1))).1 = false ∧
    (gst_vaapi_display_new_with_display demoRegistry failingPlatform 1).1 ≠ none := by
  decide

/-- C7, amended: `gst_vaapi_display_new_with_display` returns, in every case, the session as
`gst_vaapi_display_create` left it (the result of `gst_vaapi_display_create` is dropped);
that session has its subpicture set stored exactly when discovery succeeded, and then the
profile set and the image set are stored too. -/
theorem new_with_display_returns_session (R : FormatRegistry D S) (E : Platform D)
    (va_display : Nat) :
    (gst_vaapi_display_new_with_display R E va_display).1 =
      some (gst_vaapi_display_create R E
        (constructed_entry
          (gst_vaapi_display_set_property gst_vaapi_display_init va_display))).2.1 ∧
    ((gst_vaapi_display_create R E
        (constructed_entry
          (gst_vaapi_display_set_property gst_vaapi_display_init va_display))).1 = true ↔
      (gst_vaapi_display_create R E
        (constructed_entry
          (gst_vaapi_display_set_property gst_vaapi_display_init
            va_display))).2.1.subpicture_formats ≠ none) ∧
    ((gst_vaapi_display_create R E
        (constructed_entry
          (gst_vaapi_display_set_property gst_vaapi_display_init va_display))).1 = true →
      (gst_vaapi_display_create R E
        (constructed_entry
          (gst_vaapi_display_set_property gst_vaapi_display_init
            va_display))).2.1.profiles ≠ none ∧
      (gst_vaapi_display_create R E
        (constructed_entry
          (gst_vaapi_display_set_property gst_vaapi_display_init
            va_display))).2.1.image_formats ≠ none) := by
  refine ⟨rfl, ⟨fun h => ?_, fun h => ?_⟩, fun h => ?_⟩
  · rw [(create_success R E _ h).2.2]; simp
  · cases hres : (gst_vaapi_display_create R E
        (constructed_entry
          (gst_vaapi_display_set_property gst_vaapi_display_init va_display))).1 with
    | true => rfl
    | false => exact absurd (create_failure_subpicture R E _ rfl hres) h
  · obtain ⟨h1, h2, _⟩ := create_success R E _ h
    rw [h1, h2]; simp

/-- C8 at the failing input: a session built from a `NULL` handle by a class without hooks
(discovery fails, no set is stored). Every query with a non-zero argument dereferences the
`NULL` array pointer instead of returning false or an empty capability set. -/
theorem unpopulated_session_queries_fault :
    (gst_vaapi_display_new_with_display demoRegistry (demoPlatform [2] [4]) 0).1 =
      some { display := 0, create_display := true, profiles := none,
             image_formats := none, subpicture_formats := none } ∧
    gst_vaapi_display_has_profile
      { display := 0, create_display := true, profiles := none,
        image_formats := none, subpicture_formats := none } 7 = Run.fault ∧
    gst_vaapi_display_has_image_format
      { display := 0, create_display := true, profiles := none,
        image_formats := none, subpicture_formats := none } 11 = Run.fault ∧
    gst_vaapi_display_has_subpicture_format
      { display := 0, create_display := true, profiles := none,
        image_formats := none, subpicture_formats := none } 20 = Run.fault ∧
    gst_vaapi_display_get_image_caps demoRegistry (demoPlatform [2] [4])
      { display := 0, create_display := true, profiles := none,
        image_formats := none, subpicture_formats := none } = Run.fault ∧
    gst_vaapi_display_get_subpicture_caps demoRegistry (demoPlatform [2] [4])
      { display := 0, create_display := true, profiles := none,
        image_formats := none, subpicture_formats := none } = Run.fault := by
  decide

/-- C9 (no rollback): on a session whose image and subpicture sets are unset, once a handle
is there and `vaInitialize` and the profile query with its allocations have succeeded:
if the image-format query is reached and fails, `gst_vaapi_display_create` returns FALSE,
the profile set holds the reported profiles and the image and subpicture sets stay unset;
if instead the image formats are stored and the subpicture query is reached and fails,
`gst_vaapi_display_create` returns FALSE, the profile set and the sorted image set are kept
and the subpicture set stays unset. -/
theorem create_keeps_earlier_sets_on_failure (R : FormatRegistry D S) (E : Platform D)
    (priv : GstVaapiDisplayPrivate)
    (himage : priv.image_formats = none) (hsubpicture : priv.subpicture_formats = none)
    (hopen : (gst_vaapi_display_create_hooks E priv).1 = true)
    (hhandle : (gst_vaapi_display_create_hooks E priv).2.1.display ≠ 0)
    (hinit : E.vaInitialize = true)
    (hbuf : E.g_new_profiles = true) (hquery : E.vaQueryConfigProfiles.1 = true)
    (harray : E.g_array_new_profiles = true) (hformats : E.g_new_formats = true) :
    (E.vaQueryImageFormats.1 = false →
      (gst_vaapi_display_create R E priv).1 = false ∧
      (gst_vaapi_display_create R E priv).2.1.profiles = some E.vaQueryConfigProfiles.2 ∧
      (gst_vaapi_display_create R E priv).2.1.image_formats = none ∧
      (gst_vaapi_display_create R E priv).2.1.subpicture_formats = none) ∧
    (E.vaQueryImageFormats.1 = true → E.g_array_new_image_formats = true →
      E.g_renew_formats_and_flags = true → E.vaQuerySubpictureFormats.1 = false →
      (gst_vaapi_display_create R E priv).1 = false ∧
      (gst_vaapi_display_create R E priv).2.1.profiles = some E.vaQueryConfigProfiles.2 ∧
      (gst_vaapi_display_create R E priv).2.1.image_formats =
        some (E.g_array_sort (compare_yuv_formats R)
          (append_formats R [] E.vaQueryImageFormats.2)) ∧
      (gst_vaapi_display_create R E priv).2.1.subpicture_formats = none) := by
  obtain ⟨_, _, k3, k4, _⟩ := create_hooks_keeps E priv
  have hcreate : gst_vaapi_display_create R E priv =
      gst_vaapi_display_create_queries R E (gst_vaapi_display_create_hooks E priv).2.1
        (gst_vaapi_display_create_hooks E priv).2.2 := by
    unfold gst_vaapi_display_create
    simp only []
    rw [if_neg (by rw [hopen]; simp), if_neg hhandle]
  rw [hcreate]
  constructor
  · intro hfail
    simp [gst_vaapi_display_create_queries, gst_vaapi_display_create_profiles,
      gst_vaapi_display_create_image_formats, hinit, hbuf, hquery, harray, hformats, hfail,
      k3.trans himage, k4.trans hsubpicture]
  · intro h1 h2 h3 hfail
    simp [gst_vaapi_display_create_queries, gst_vaapi_display_create_profiles,
      gst_vaapi_display_create_image_formats, gst_vaapi_display_create_subpicture_formats,
      hinit, hbuf, hquery, harray, hformats, h1, h2, h3, hfail, k4.trans hsubpicture]

/-- C9 at two concrete inputs: a driver whose image-format query fails, and a driver whose
subpicture-format query fails. -/
theorem create_keeps_earlier_sets_on_failure_witness :
    ((gst_vaapi_display_create demoRegistry
        { demoPlatform [2, 4] [4] with vaQueryImageFormats := (false, []) }
        (constructed_entry (gst_vaapi_display_set_property gst_vaapi_display_init 1))).1 = false ∧
      (gst_vaapi_display_create demoRegistry
        { demoPlatform [2, 4] [4] with vaQueryImageFormats := (false, []) }
        (constructed_entry (gst_vaapi_display_set_property gst_vaapi_display_init 1))).2.1.profiles
        = some [7, 3] ∧
      (gst_vaapi_display_create demoRegistry
        { demoPlatform [2, 4] [4] with vaQueryImageFormats := (false, []) }
        (constructed_entry
          (gst_vaapi_display_set_property gst_vaapi_display_init 1))).2.1.image_formats = none ∧
      (gst_vaapi_display_create demoRegistry
        { demoPlatform [2, 4] [4] with vaQueryImageFormats := (false, []) }
        (constructed_entry
          (gst_vaapi_display_set_property gst_vaapi_display_init 1))).2.1.subpicture_formats
        = none) ∧
    ((gst_vaapi_display_create demoRegistry
        { demoPlatform [2, 4] [4] with vaQuerySubpictureFormats := (false, []) }
        (constructed_entry (gst_vaapi_display_set_property gst_vaapi_display_init 1))).1 = false ∧
      (gst_vaapi_display_create demoRegistry
        { demoPlatform [2, 4] [4] with vaQuerySubpictureFormats := (false, []) }
        (constructed_entry (gst_vaapi_display_set_property gst_vaapi_display_init 1))).2.1.profiles
        = some [7, 3] ∧
      (gst_vaapi_display_create demoRegistry
        { demoPlatform [2, 4] [4] with vaQuerySubpictureFormats := (false, []) }
        (constructed_entry
          (gst_vaapi_display_set_property gst_vaapi_display_init 1))).2.1.image_formats =
        some (insertion_sort (compare_yuv_formats demoRegistry)
          (append_formats demoRegistry [] [2, 4])) ∧
      (gst_vaapi_display_create demoRegistry
        { demoPlatform [2, 4] [4] with vaQuerySubpictureFormats := (false, []) }
        (constructed_entry
          (gst_vaapi_display_set_property gst_vaapi_display_init 1))).2.1.subpicture_formats
        = none) :=
  ⟨(create_keeps_earlier_sets_on_failure demoRegistry
      { demoPlatform [2, 4] [4] with vaQueryImageFormats := (false, []) }
      (constructed_entry (gst_vaapi_display_set_property gst_vaapi_display_init 1))
      rfl rfl (by decide) (by decide) rfl rfl rfl rfl rfl).1 rfl,
    (create_keeps_earlier_sets_on_failure demoRegistry
      { demoPlatform [2, 4] [4] with vaQuerySubpictureFormats := (false, []) }
      (constructed_entry (gst_vaapi_display_set_property gst_vaapi_display_init 1))
      rfl rfl (by decide) (by decide) rfl rfl rfl rfl rfl).2 rfl rfl rfl rfl⟩

/-- C10 (externally supplied handle): a session constructed with a handle that is not `NULL`
has `create_display` false, its discovery calls neither `open_display` nor `get_display`,
and `gst_vaapi_display_destroy` on it does not call `close_display`, whatever the driver
answers during discovery. -/
theorem external_handle_never_uses_hooks (R : FormatRegistry D S) (E : Platform D)
    (va_display : Nat) (h : va_display ≠ 0) :
    ∃ priv : GstVaapiDisplayPrivate,
      (gst_vaapi_display_new_with_display R E va_display).1 = some priv ∧
      priv.create_display = false ∧
      Call.open_display ∉ (gst_vaapi_display_new_with_display R E va_display).2 ∧
      Call.get_display ∉ (gst_vaapi_display_new_with_display R E va_display).2 ∧
      Call.close_display ∉ (gst_vaapi_display_new_with_display R E va_display).2 ∧
      Call.close_display ∉ (gst_vaapi_display_destroy E priv).2 := by
  have hentry : (constructed_entry
      (gst_vaapi_display_set_property gst_vaapi_display_init va_display)).display ≠ 0 := h
  have hflag : (constructed_entry
      (gst_vaapi_display_set_property gst_vaapi_display_init va_display)).create_display =
      false := by
    simp [constructed_entry, gst_vaapi_display_set_property, h]
  have hcreate : gst_vaapi_display_create R E (constructed_entry
      (gst_vaapi_display_set_property gst_vaapi_display_init va_display)) =
      gst_vaapi_display_create_queries R E (constructed_entry
        (gst_vaapi_display_set_property gst_vaapi_display_init va_display)) [] := by
    unfold gst_vaapi_display_create
    simp only []
    rw [create_hooks_skip E _ (Or.inl hentry)]
    rw [if_neg (by simp), if_neg hentry]
  obtain ⟨_, k2, k3⟩ := create_queries_keeps R E (constructed_entry
      (gst_vaapi_display_set_property gst_vaapi_display_init va_display)) []
  have hcalls : ∀ c, c = Call.open_display ∨ c = Call.get_display ∨ c = Call.close_display →
      c ∉ (gst_vaapi_display_new_with_display R E va_display).2 := by
    intro c hc hmem
    have hmem2 : c ∈ (gst_vaapi_display_create_queries R E (constructed_entry
        (gst_vaapi_display_set_property gst_vaapi_display_init va_display)) []).2.2 := by
      rw [← hcreate]; exact hmem
    rcases k3 c hmem2 with hk | hk | hk | hk | hk
    · cases hk
    all_goals
      subst hk
      rcases hc with hc | hc | hc <;> cases hc
  refine ⟨_, rfl, ?_, hcalls _ (Or.inl rfl), hcalls _ (Or.inr (Or.inl rfl)),
    hcalls _ (Or.inr (Or.inr rfl)), ?_⟩
  · show (gst_vaapi_display_create R E _).2.1.create_display = false
    rw [hcreate, k2]; exact hflag
  · have hcd : (gst_vaapi_display_create R E (constructed_entry
        (gst_vaapi_display_set_property gst_vaapi_display_init
          va_display))).2.1.create_display = false := by
      rw [hcreate, k2]; exact hflag
    show Call.close_display ∉ (gst_vaapi_display_destroy E
      (gst_vaapi_display_create R E _).2.1).2
    simp [gst_vaapi_display_destroy, hcd]

/-- C10 at a concrete input: handle 1 on a class with all three hooks set; discovery and
teardown call the driver only. -/
theorem external_handle_never_uses_hooks_witness :
    (gst_vaapi_display_new_with_display demoRegistry
      { demoPlatform [2] [4] with
        open_display := some true, get_display := some 5, close_display := true } 1).2 =
      [Call.vaInitialize, Call.vaQueryConfigProfiles, Call.vaQueryImageFormats,
        Call.vaQuerySubpictureFormats] ∧
    ∃ priv : GstVaapiDisplayPrivate,
      (gst_vaapi_display_new_with_display demoRegistry
        { demoPlatform [2] [4] with
          open_display := some true, get_display := some 5, close_display := true } 1).1 =
        some priv ∧
      priv.create_display = false ∧
      Call.open_display ∉ (gst_vaapi_display_new_with_display demoRegistry
        { demoPlatform [2] [4] with
          open_display := some true, get_display := some 5, close_display := true } 1).2 ∧
      Call.get_display ∉ (gst_vaapi_display_new_with_display demoRegistry
        { demoPlatform [2] [4] with
          open_display := some true, get_display := some 5, close_display := true } 1).2 ∧
      Call.close_display ∉ (gst_vaapi_display_new_with_display demoRegistry
        { demoPlatform [2] [4] with
          open_display := some true, get_display := some 5, close_display := true } 1).2 ∧
      Call.close_display ∉ (gst_vaapi_display_destroy
        { demoPlatform [2] [4] with
          open_display := some true, get_display := some 5, close_display := true } priv).2 :=
  ⟨by decide,
    external_handle_never_uses_hooks demoRegistry
      { demoPlatform [2] [4] with
        open_display := some true, get_display := some 5, close_display := true } 1
      (by decide)⟩

/-! ## Construction followed by teardown -/

theorem create_subpicture_formats_extends (R : FormatRegistry D S) (E : Platform D)
    (priv : GstVaapiDisplayPrivate) (calls : List Call) :
    ∃ more, (gst_vaapi_display_create_subpicture_formats R E priv calls).2.2 = calls ++ more := by
  unfold gst_vaapi_display_create_subpicture_formats
  split_ifs
  · exact ⟨[], by simp⟩
  · exact ⟨_, rfl⟩
  · exact ⟨_, rfl⟩
  · exact ⟨_, rfl⟩

theorem create_image_formats_extends (R : FormatRegistry D S) (E : Platform D)
    (priv : GstVaapiDisplayPrivate) (calls : List Call) :
    ∃ more, (gst_vaapi_display_create_image_formats R E priv calls).2.2 = calls ++ more := by
  unfold gst_vaapi_display_create_image_formats
  split_ifs
  · exact ⟨[], by simp⟩
  · exact ⟨_, rfl⟩
  · exact ⟨_, rfl⟩
  · obtain ⟨more, hmore⟩ := create_subpicture_formats_extends R E
      { priv with image_formats := some (E.g_array_sort (compare_yuv_formats R)
          (append_formats R [] E.vaQueryImageFormats.2)) }
      (calls ++ [Call.vaQueryImageFormats])
    exact ⟨Call.vaQueryImageFormats :: more, by simpa using hmore⟩

theorem create_profiles_extends (R : FormatRegistry D S) (E : Platform D)
    (priv : GstVaapiDisplayPrivate) (calls : List Call) :
    ∃ more, (gst_vaapi_display_create_profiles R E priv calls).2.2 = calls ++ more := by
  unfold gst_vaapi_display_create_profiles
  split_ifs
  · exact ⟨[], by simp⟩
  · exact ⟨_, rfl⟩
  · exact ⟨_, rfl⟩
  · obtain ⟨more, hmore⟩ := create_image_formats_extends R E
      { priv with profiles := some ([] ++ E.vaQueryConfigProfiles.2) }
      (calls ++ [Call.vaQueryConfigProfiles])
    exact ⟨Call.vaQueryConfigProfiles :: more, by simpa using hmore⟩

/-- The part of `gst_vaapi_display_create` after the handle lookup keeps the calls made so
far and calls `vaInitialize` next. -/
theorem create_queries_extends (R : FormatRegistry D S) (E : Platform D)
    (priv : GstVaapiDisplayPrivate) (calls : List Call) :
    ∃ more, (gst_vaapi_display_create_queries R E priv calls).2.2 =
      calls ++ Call.vaInitialize :: more := by
  unfold gst_vaapi_display_create_queries
  split_ifs
  · exact ⟨[], by simp⟩
  · obtain ⟨more, hmore⟩ := create_profiles_extends R E priv (calls ++ [Call.vaInitialize])
    exact ⟨more, by simpa using hmore⟩

/-- The three ways `gst_vaapi_display_create` can end: after a failed `open_display`, at the
`NULL` handle check, or in the part that starts with `vaInitialize`. -/
theorem create_eq (R : FormatRegistry D S) (E : Platform D) (priv : GstVaapiDisplayPrivate) :
    (((gst_vaapi_display_create_hooks E priv).1 = false ∨
        (gst_vaapi_display_create_hooks E priv).2.1.display = 0) ∧
      gst_vaapi_display_create R E priv =
        (false, (gst_vaapi_display_create_hooks E priv).2.1,
          (gst_vaapi_display_create_hooks E priv).2.2)) ∨
    ((gst_vaapi_display_create_hooks E priv).1 = true ∧
      (gst_vaapi_display_create_hooks E priv).2.1.display ≠ 0 ∧
      gst_vaapi_display_create R E priv =
        gst_vaapi_display_create_queries R E (gst_vaapi_display_create_hooks E priv).2.1
          (gst_vaapi_display_create_hooks E priv).2.2) := by
  unfold gst_vaapi_display_create
  simp only []
  split_ifs with h1 h2
  · exact Or.inl ⟨Or.inl h1, rfl⟩
  · exact Or.inl ⟨Or.inr h2, rfl⟩
  · refine Or.inr ⟨?_, h2, rfl⟩
    cases hb : (gst_vaapi_display_create_hooks E priv).1
    · exact absurd hb h1
    · rfl

/-- No block of `gst_vaapi_display_create` changes `create_display`. -/
theorem create_keeps_create_display (R : FormatRegistry D S) (E : Platform D)
    (priv : GstVaapiDisplayPrivate) :
    (gst_vaapi_display_create R E priv).2.1.create_display = priv.create_display := by
  obtain ⟨k1, _⟩ := create_hooks_keeps E priv
  rcases create_eq R E priv with ⟨_, heq⟩ | ⟨_, _, heq⟩
  · rw [heq]; exact k1
  · rw [heq, (create_queries_keeps R E _ _).2.1]; exact k1

/-- The hook block run for a session without a handle calls `open_display` whenever the
class has that hook. -/
theorem create_hooks_calls_open (E : Platform D) (priv : GstVaapiDisplayPrivate)
    (hd : priv.display = 0) (hc : priv.create_display = true) (ho : E.open_display ≠ none) :
    Call.open_display ∈ (gst_vaapi_display_create_hooks E priv).2.2 := by
  unfold gst_vaapi_display_create_hooks
  rw [if_pos ⟨hd, hc⟩]
  by_cases h2 : E.open_display = some false
  · rw [if_pos h2]; simp
  · rw [if_neg h2]
    cases hg : E.get_display <;> simp [ho]

/-- Every call of the hook block is among the calls of `gst_vaapi_display_create`. -/
theorem create_calls_of_hooks (R : FormatRegistry D S) (E : Platform D)
    (priv : GstVaapiDisplayPrivate) (c : Call)
    (h : c ∈ (gst_vaapi_display_create_hooks E priv).2.2) :
    c ∈ (gst_vaapi_display_create R E priv).2.2 := by
  rcases create_eq R E priv with ⟨_, heq⟩ | ⟨_, _, heq⟩
  · rw [heq]; exact h
  · obtain ⟨more, hmore⟩ := create_queries_extends R E
      (gst_vaapi_display_create_hooks E priv).2.1 (gst_vaapi_display_create_hooks E priv).2.2
    rw [heq, hmore]
    exact List.mem_append_left _ h

/-- The function `gst_vaapi_display_destroy` calls `close_display` exactly under
`create_display` with the hook set. -/
theorem destroy_calls_close_display (E : Platform D) (priv : GstVaapiDisplayPrivate) :
    Call.close_display ∈ (gst_vaapi_display_destroy E priv).2 ↔
      priv.create_display = true ∧ E.close_display = true := by
  unfold gst_vaapi_display_destroy
  by_cases hd : priv.display = 0 <;>
    by_cases hc : priv.create_display = true ∧ E.close_display = true <;>
    simp [hd, hc]

/-- The function `gst_vaapi_display_destroy` calls `vaTerminate` exactly when the handle is
not `NULL`. -/
theorem destroy_calls_vaTerminate (E : Platform D) (priv : GstVaapiDisplayPrivate) :
    Call.vaTerminate ∈ (gst_vaapi_display_destroy E priv).2 ↔ priv.display ≠ 0 := by
  unfold gst_vaapi_display_destroy
  by_cases hd : priv.display = 0 <;>
    by_cases hc : priv.create_display = true ∧ E.close_display = true <;>
    simp [hd, hc]

/-- C11, as stated, fails: a session built without a handle whose `open_display` hook returns
false (discovery fails right there) still gets `close_display` called at teardown. -/
theorem close_display_after_failed_open_counterexample :
    (gst_vaapi_display_new_with_display demoRegistry
      { demoPlatform [2] [4] with
        open_display := some false, get_display := some 5, close_display := true } 0).2 =
      [Call.open_display] ∧
    (gst_vaapi_display_create demoRegistry
      { demoPlatform [2] [4] with
        open_display := some false, get_display := some 5, close_display := true }
      (constructed_entry (gst_vaapi_display_set_property gst_vaapi_display_init 0))).1 = false ∧
    (gst_vaapi_display_destroy
      { demoPlatform [2] [4] with
        open_display := some false, get_display := some 5, close_display := true }
      (gst_vaapi_display_constructed demoRegistry
        { demoPlatform [2] [4] with
          open_display := some false, get_display := some 5, close_display := true }
        (gst_vaapi_display_set_property gst_vaapi_display_init 0)).1).2 =
      [Call.close_display] := by
  decide

/-- C11, amended: in a run of construction followed by teardown, `close_display` is called
exactly when the session was constructed without a handle (`create_display` is true) and the
class has a `close_display` hook; in such a run the `open_display` hook, when the class has
one, was called during discovery, whatever it returned. -/
theorem close_display_iff_constructed_without_handle (R : FormatRegistry D S) (E : Platform D)
    (va_display : Nat) :
    (Call.close_display ∈ (gst_vaapi_display_destroy E
        (gst_vaapi_display_constructed R E
          (gst_vaapi_display_set_property gst_vaapi_display_init va_display)).1).2 ↔
      va_display = 0 ∧ E.close_display = true) ∧
    (va_display = 0 → E.open_display ≠ none →
      Call.open_display ∈ (gst_vaapi_display_new_with_display R E va_display).2) := by
  have hflag : (gst_vaapi_display_constructed R E
      (gst_vaapi_display_set_property gst_vaapi_display_init va_display)).1.create_display =
      decide (va_display = 0) :=
    create_keeps_create_display R E _
  constructor
  · rw [destroy_calls_close_display, hflag, decide_eq_true_iff]
  · intro hv ho
    exact create_calls_of_hooks R E _ _
      (create_hooks_calls_open E _ hv (by simp [constructed_entry,
        gst_vaapi_display_set_property, hv]) ho)

/-- C11 amended, at a concrete input: a class with all hooks builds a session without a
handle; `open_display` is called during discovery and `close_display` at teardown. -/
theorem close_display_iff_constructed_without_handle_witness :
    Call.open_display ∈ (gst_vaapi_display_new_with_display demoRegistry
      { demoPlatform [2] [4] with
        open_display := some true, get_display := some 5, close_display := true } 0).2 ∧
    Call.close_display ∈ (gst_vaapi_display_destroy
      { demoPlatform [2] [4] with
        open_display := some true, get_display := some 5, close_display := true }
      (gst_vaapi_display_constructed demoRegistry
        { demoPlatform [2] [4] with
          open_display := some true, get_display := some 5, close_display := true }
        (gst_vaapi_display_set_property gst_vaapi_display_init 0)).1).2 :=
  ⟨(close_display_iff_constructed_without_handle demoRegistry
      { demoPlatform [2] [4] with
        open_display := some true, get_display := some 5, close_display := true } 0).2
      rfl (by decide),
    (close_display_iff_constructed_without_handle demoRegistry
      { demoPlatform [2] [4] with
        open_display := some true, get_display := some 5, close_display := true } 0).1.mpr
      ⟨rfl, rfl⟩⟩

/-! ## The profile set and the capability queries -/

theorem find_profile_loop_eq (profile : Int) (l : List Int) :
    find_profile_loop profile l = decide (profile ∈ l) := by
  induction l with
  | nil => simp [find_profile_loop]
  | cons p l ih =>
    by_cases h : p = profile
    · simp [find_profile_loop, h]
    · have h2 : ¬ profile = p := fun e => h e.symm
      simp [find_profile_loop, h, h2, ih]

theorem create_subpicture_formats_profiles (R : FormatRegistry D S) (E : Platform D)
    (priv : GstVaapiDisplayPrivate) (calls : List Call) :
    (gst_vaapi_display_create_subpicture_formats R E priv calls).2.1.profiles = priv.profiles ∧
    (gst_vaapi_display_create_subpicture_formats R E priv calls).2.1.image_formats =
      priv.image_formats := by
  unfold gst_vaapi_display_create_subpicture_formats
  split_ifs <;> exact ⟨rfl, rfl⟩

theorem create_image_formats_profiles (R : FormatRegistry D S) (E : Platform D)
    (priv : GstVaapiDisplayPrivate) (calls : List Call) :
    (gst_vaapi_display_create_image_formats R E priv calls).2.1.profiles = priv.profiles := by
  unfold gst_vaapi_display_create_image_formats
  split_ifs
  · rfl
  · rfl
  · rfl
  · exact (create_subpicture_formats_profiles R E _ _).1

/-- Once the profile query and the allocation of the array have succeeded, the profile block
stores the reported profiles, whatever the later blocks do. -/
theorem create_profiles_stored (R : FormatRegistry D S) (E : Platform D)
    (priv : GstVaapiDisplayPrivate) (calls : List Call)
    (hbuf : E.g_new_profiles = true) (hquery : E.vaQueryConfigProfiles.1 = true)
    (harray : E.g_array_new_profiles = true) :
    (gst_vaapi_display_create_profiles R E priv calls).2.1.profiles =
      some E.vaQueryConfigProfiles.2 := by
  unfold gst_vaapi_display_create_profiles
  rw [if_neg (by simp [hbuf]), if_neg (by simp [hquery]), if_neg (by simp [harray])]
  rw [create_image_formats_profiles]
  simp

/-- C12 (profile set): once a handle is there and `vaInitialize`, the profile query and its
allocations have succeeded, the stored profile set is exactly the list of the reported
profiles, in the reported order and with repetitions kept, whatever happens in the later
blocks; `gst_vaapi_display_has_profile` then returns, and returns true exactly for the
profiles that occur in that list. -/
theorem profile_set_is_reported_list (R : FormatRegistry D S) (E : Platform D)
    (priv : GstVaapiDisplayPrivate)
    (hopen : (gst_vaapi_display_create_hooks E priv).1 = true)
    (hhandle : (gst_vaapi_display_create_hooks E priv).2.1.display ≠ 0)
    (hinit : E.vaInitialize = true)
    (hbuf : E.g_new_profiles = true) (hquery : E.vaQueryConfigProfiles.1 = true)
    (harray : E.g_array_new_profiles = true) :
    (gst_vaapi_display_create R E priv).2.1.profiles = some E.vaQueryConfigProfiles.2 ∧
    ∀ profile : Int,
      gst_vaapi_display_has_profile (gst_vaapi_display_create R E priv).2.1 profile =
        Run.ret (decide (profile ∈ E.vaQueryConfigProfiles.2)) ∧
      (gst_vaapi_display_has_profile (gst_vaapi_display_create R E priv).2.1 profile =
        Run.ret true ↔ profile ∈ E.vaQueryConfigProfiles.2) := by
  have hstored : (gst_vaapi_display_create R E priv).2.1.profiles =
      some E.vaQueryConfigProfiles.2 := by
    rcases create_eq R E priv with ⟨hfail, _⟩ | ⟨_, _, heq⟩
    · rcases hfail with hfail | hfail
      · rw [hopen] at hfail; cases hfail
      · exact absurd hfail hhandle
    · rw [heq]
      unfold gst_vaapi_display_create_queries
      simp only []
      rw [if_neg (by simp [hinit])]
      exact create_profiles_stored R E _ _ hbuf hquery harray
  refine ⟨hstored, fun profile => ?_⟩
  have hret : gst_vaapi_display_has_profile (gst_vaapi_display_create R E priv).2.1 profile =
      Run.ret (decide (profile ∈ E.vaQueryConfigProfiles.2)) := by
    unfold gst_vaapi_display_has_profile
    rw [hstored]
    simp only [find_profile, find_profile_loop_eq]
  refine ⟨hret, ?_⟩
  rw [hret]
  constructor
  · intro h
    exact of_decide_eq_true (Run.ret.inj h)
  · intro h
    rw [decide_eq_true h]

/-- C12 at a concrete input: the driver reports the profiles 7, 3, 7 and the image query then
fails; the stored set is the reported list and profile 3 is found, profile 4 is not. -/
theorem profile_set_is_reported_list_witness :
    (gst_vaapi_display_create demoRegistry
      { demoPlatform [2] [4] with
        vaQueryConfigProfiles := (true, [7, 3, 7]), vaQueryImageFormats := (false, []) }
      (constructed_entry (gst_vaapi_display_set_property gst_vaapi_display_init 1))).2.1.profiles
      = some [7, 3, 7] ∧
    gst_vaapi_display_has_profile (gst_vaapi_display_create demoRegistry
      { demoPlatform [2] [4] with
        vaQueryConfigProfiles := (true, [7, 3, 7]), vaQueryImageFormats := (false, []) }
      (constructed_entry (gst_vaapi_display_set_property gst_vaapi_display_init 1))).2.1 3
      = Run.ret true ∧
    gst_vaapi_display_has_profile (gst_vaapi_display_create demoRegistry
      { demoPlatform [2] [4] with
        vaQueryConfigProfiles := (true, [7, 3, 7]), vaQueryImageFormats := (false, []) }
      (constructed_entry (gst_vaapi_display_set_property gst_vaapi_display_init 1))).2.1 4
      = Run.ret false :=
  ⟨(profile_set_is_reported_list demoRegistry
      { demoPlatform [2] [4] with
        vaQueryConfigProfiles := (true, [7, 3, 7]), vaQueryImageFormats := (false, []) }
      (constructed_entry (gst_vaapi_display_set_property gst_vaapi_display_init 1))
      (by decide) (by decide) rfl rfl rfl rfl).1,
    ((profile_set_is_reported_list demoRegistry
      { demoPlatform [2] [4] with
        vaQueryConfigProfiles := (true, [7, 3, 7]), vaQueryImageFormats := (false, []) }
      (constructed_entry (gst_vaapi_display_set_property gst_vaapi_display_init 1))
      (by decide) (by decide) rfl rfl rfl rfl).2 3).2.mpr (by decide),
    by decide⟩

theorem get_caps_loop_eq (R : FormatRegistry D S) (l : List GstVaapiImageFormat) :
    ∀ out_caps : List S,
      get_caps_loop R l out_caps =
        out_caps ++
          (l.map (fun format => (R.gst_vaapi_image_format_get_caps format).getD [])).flatten := by
  induction l with
  | nil => intro out_caps; simp [get_caps_loop]
  | cons format rest ih =>
    intro out_caps
    cases hcaps : R.gst_vaapi_image_format_get_caps format with
    | none => simp [get_caps_loop, hcaps, ih]
    | some caps => simp [get_caps_loop, hcaps, ih, List.append_assoc]

/-- The function `get_caps` on a stored array, with `gst_caps_new_empty` succeeding. -/
theorem get_caps_eq (R : FormatRegistry D S) (E : Platform D)
    (hnew : E.gst_caps_new_empty = true) (l : List GstVaapiImageFormat) :
    get_caps R E (some l) =
      Run.ret (some
        (l.map (fun format => (R.gst_vaapi_image_format_get_caps format).getD [])).flatten) := by
  unfold get_caps
  rw [if_neg (by simp [hnew])]
  simp only [get_caps_loop_eq, List.nil_append]

/-- C13 (capability queries): with `gst_caps_new_empty` succeeding and the set stored,
`gst_vaapi_display_get_image_caps` and `gst_vaapi_display_get_subpicture_caps` return the
concatenation, in the order of the stored set, of `gst_vaapi_image_format_get_caps` of every
format in it; a format without caps contributes nothing, and an empty set gives empty caps. -/
theorem get_caps_is_concatenation (R : FormatRegistry D S) (E : Platform D)
    (hnew : E.gst_caps_new_empty = true) (priv : GstVaapiDisplayPrivate) :
    (∀ l, priv.image_formats = some l →
      gst_vaapi_display_get_image_caps R E priv =
        Run.ret (some (l.map
          (fun format => (R.gst_vaapi_image_format_get_caps format).getD [])).flatten)) ∧
    (∀ l, priv.subpicture_formats = some l →
      gst_vaapi_display_get_subpicture_caps R E priv =
        Run.ret (some (l.map
          (fun format => (R.gst_vaapi_image_format_get_caps format).getD [])).flatten)) ∧
    (∀ (before after : List GstVaapiImageFormat) (format : GstVaapiImageFormat),
      R.gst_vaapi_image_format_get_caps format = none →
        get_caps R E (some (before ++ format :: after)) = get_caps R E (some (before ++ after))) ∧
    get_caps R E (some []) = Run.ret (some []) := by
  refine ⟨fun l hl => ?_, fun l hl => ?_, fun before after format hnone => ?_, ?_⟩
  · unfold gst_vaapi_display_get_image_caps
    rw [hl, get_caps_eq R E hnew]
  · unfold gst_vaapi_display_get_subpicture_caps
    rw [hl, get_caps_eq R E hnew]
  · rw [get_caps_eq R E hnew, get_caps_eq R E hnew]
    simp [hnone]
  · rw [get_caps_eq R E hnew]
    rfl

/-- C13 at a concrete input: format 10 has one caps structure, format 30 has none, format 20
has two. -/
theorem get_caps_is_concatenation_witness :
    gst_vaapi_display_get_image_caps demoRegistry (demoPlatform [] [])
      { display := 1, create_display := false, profiles := some [],
        image_formats := some [10, 30, 20], subpicture_formats := some [] } =
      Run.ret (some [10, 20, 120]) :=
  ((get_caps_is_concatenation demoRegistry (demoPlatform [] []) rfl
      { display := 1, create_display := false, profiles := some [],
        image_formats := some [10, 30, 20], subpicture_formats := some [] }).1
    [10, 30, 20] rfl).trans (by decide)

/-! ## Teardown of the driver connection -/

/-- The hook block stops `gst_vaapi_display_create` only on a session without a handle. -/
theorem create_hooks_stop (E : Platform D) (priv : GstVaapiDisplayPrivate)
    (h : (gst_vaapi_display_create_hooks E priv).1 = false) :
    (gst_vaapi_display_create_hooks E priv).2.1.display = 0 := by
  unfold gst_vaapi_display_create_hooks at h ⊢
  by_cases h1 : priv.display = 0 ∧ priv.create_display = true
  · rw [if_pos h1] at h ⊢
    by_cases h2 : E.open_display = some false
    · rw [if_pos h2]; exact h1.1
    · rw [if_neg h2] at h
      cases hg : E.get_display <;> rw [hg] at h <;> simp at h
  · rw [if_neg h1] at h
    simp at h

/-- After `gst_vaapi_display_create` the handle is not `NULL` exactly when `vaInitialize` was
called. -/
theorem create_handle_iff_vaInitialize (R : FormatRegistry D S) (E : Platform D)
    (priv : GstVaapiDisplayPrivate) :
    (gst_vaapi_display_create R E priv).2.1.display ≠ 0 ↔
      Call.vaInitialize ∈ (gst_vaapi_display_create R E priv).2.2 := by
  rcases create_eq R E priv with ⟨hfail, heq⟩ | ⟨_, hhandle, heq⟩
  · have hzero : (gst_vaapi_display_create_hooks E priv).2.1.display = 0 := by
      rcases hfail with hfail | hfail
      · exact create_hooks_stop E priv hfail
      · exact hfail
    have hnot : Call.vaInitialize ∉ (gst_vaapi_display_create_hooks E priv).2.2 := by
      intro hmem
      rcases (create_hooks_keeps E priv).2.2.2.2 _ hmem with hc | hc <;> cases hc
    rw [heq]
    exact ⟨fun hne => absurd hzero hne, fun hmem => absurd hmem hnot⟩
  · obtain ⟨more, hmore⟩ := create_queries_extends R E
      (gst_vaapi_display_create_hooks E priv).2.1 (gst_vaapi_display_create_hooks E priv).2.2
    rw [heq, (create_queries_keeps R E _ _).1, hmore]
    exact ⟨fun _ => by simp, fun _ => hhandle⟩

/-- C14, as stated, fails: with a handle whose `vaInitialize` fails, teardown still calls
`vaTerminate`. -/
theorem vaTerminate_after_failed_vaInitialize_counterexample :
    failingPlatform.vaInitialize = false ∧
    (gst_vaapi_display_new_with_display demoRegistry failingPlatform 1).2 =
      [Call.vaInitialize] ∧
    (gst_vaapi_display_create demoRegistry failingPlatform
      (constructed_entry (gst_vaapi_display_set_property gst_vaapi_display_init 1))).1 = false ∧
    (gst_vaapi_display_destroy failingPlatform
      (gst_vaapi_display_constructed demoRegistry failingPlatform
        (gst_vaapi_display_set_property gst_vaapi_display_init 1)).1).2 =
      [Call.vaTerminate] := by
  decide

/-- C14, amended: `gst_vaapi_display_destroy` calls `vaTerminate` exactly when the handle of
the session is not `NULL`, which after construction is exactly when discovery called
`vaInitialize` (whether it succeeded or not); afterwards the profile set, both capability
sets and the handle are cleared. -/
theorem vaTerminate_iff_handle (R : FormatRegistry D S) (E : Platform D) (va_display : Nat) :
    (Call.vaTerminate ∈ (gst_vaapi_display_destroy E
        (gst_vaapi_display_constructed R E
          (gst_vaapi_display_set_property gst_vaapi_display_init va_display)).1).2 ↔
      (gst_vaapi_display_constructed R E
        (gst_vaapi_display_set_property gst_vaapi_display_init va_display)).1.display ≠ 0) ∧
    ((gst_vaapi_display_constructed R E
        (gst_vaapi_display_set_property gst_vaapi_display_init va_display)).1.display ≠ 0 ↔
      Call.vaInitialize ∈ (gst_vaapi_display_new_with_display R E va_display).2) ∧
    (∀ priv : GstVaapiDisplayPrivate,
      (gst_vaapi_display_destroy E priv).1.profiles = none ∧
      (gst_vaapi_display_destroy E priv).1.image_formats = none ∧
      (gst_vaapi_display_destroy E priv).1.subpicture_formats = none ∧
      (gst_vaapi_display_destroy E priv).1.display = 0) :=
  ⟨destroy_calls_vaTerminate E _, create_handle_iff_vaInitialize R E _,
    fun _ => ⟨rfl, rfl, rfl, rfl⟩⟩

/-! ## Membership in the stored sets -/

/-- The elements of what `append_formats` produces from an empty array: the recognised
formats, and the sibling when exactly one of YV12 and I420 is recognised. -/
theorem mem_append_formats (R : FormatRegistry D S)
    (hne : R.GST_VAAPI_IMAGE_YV12 ≠ R.GST_VAAPI_IMAGE_I420) (ds : List D)
    (f : GstVaapiImageFormat) :
    f ∈ append_formats R [] ds ↔
      f ∈ mapped_formats R ds ∨
      (f = R.GST_VAAPI_IMAGE_I420 ∧ R.GST_VAAPI_IMAGE_YV12 ∈ mapped_formats R ds ∧
        R.GST_VAAPI_IMAGE_I420 ∉ mapped_formats R ds) ∨
      (f = R.GST_VAAPI_IMAGE_YV12 ∧ R.GST_VAAPI_IMAGE_I420 ∈ mapped_formats R ds ∧
        R.GST_VAAPI_IMAGE_YV12 ∉ mapped_formats R ds) := by
  rw [append_formats_eq R hne]
  by_cases hY : R.GST_VAAPI_IMAGE_YV12 ∈ mapped_formats R ds <;>
    by_cases hI : R.GST_VAAPI_IMAGE_I420 ∈ mapped_formats R ds <;>
    simp [hY, hI]

/-- After a successful discovery `gst_vaapi_display_has_subpicture_format` decides membership
in the normalised subpicture list. -/
theorem has_subpicture_format_of_success (R : FormatRegistry D S) (E : Platform D)
    (hsort : GArraySortContract E.g_array_sort)
    (priv : GstVaapiDisplayPrivate) (h : (gst_vaapi_display_create R E priv).1 = true)
    (format : GstVaapiImageFormat) (hformat : format ≠ 0) :
    gst_vaapi_display_has_subpicture_format (gst_vaapi_display_create R E priv).2.1 format =
      Run.ret (decide (format ∈ append_formats R [] E.vaQuerySubpictureFormats.2)) := by
  unfold gst_vaapi_display_has_subpicture_format
  rw [if_neg hformat, (create_success R E priv h).2.2]
  simp only [find_format, find_format_loop_eq]
  congr 1
  exact decide_eq_decide.mpr (hsort _ _).1.mem_iff

/-- A query that returns `decide p` returns true exactly when `p` holds. -/
theorem ret_decide_eq_true_iff (p : Prop) [Decidable p] :
    (Run.ret (decide p) : Run Bool) = Run.ret true ↔ p :=
  ⟨fun h => of_decide_eq_true (Run.ret.inj h), fun h => by rw [decide_eq_true h]⟩

/-- C15 (what the format queries answer): after a successful discovery, for a non-zero
format `f`, `gst_vaapi_display_has_image_format` (resp. `..._has_subpicture_format`) returns
true exactly when `f` is the lookup result of a reported image (resp. subpicture) descriptor,
or `f` is the sibling appended because exactly one of YV12 and I420 was recognised; the
stored set has the elements and the length of the normalised list. -/
theorem format_queries_decide_normalised_membership (R : FormatRegistry D S) (E : Platform D)
    (hsort : GArraySortContract E.g_array_sort)
    (hne : R.GST_VAAPI_IMAGE_YV12 ≠ R.GST_VAAPI_IMAGE_I420)
    (priv : GstVaapiDisplayPrivate) (hok : (gst_vaapi_display_create R E priv).1 = true)
    (f : GstVaapiImageFormat) (hf : f ≠ 0) :
    (gst_vaapi_display_has_image_format (gst_vaapi_display_create R E priv).2.1 f =
        Run.ret true ↔
      (∃ d ∈ E.vaQueryImageFormats.2, R.gst_vaapi_image_format d = f) ∨
      (f = R.GST_VAAPI_IMAGE_I420 ∧
        R.GST_VAAPI_IMAGE_YV12 ∈ mapped_formats R E.vaQueryImageFormats.2 ∧
        R.GST_VAAPI_IMAGE_I420 ∉ mapped_formats R E.vaQueryImageFormats.2) ∨
      (f = R.GST_VAAPI_IMAGE_YV12 ∧
        R.GST_VAAPI_IMAGE_I420 ∈ mapped_formats R E.vaQueryImageFormats.2 ∧
        R.GST_VAAPI_IMAGE_YV12 ∉ mapped_formats R E.vaQueryImageFormats.2)) ∧
    (gst_vaapi_display_has_subpicture_format (gst_vaapi_display_create R E priv).2.1 f =
        Run.ret true ↔
      (∃ d ∈ E.vaQuerySubpictureFormats.2, R.gst_vaapi_image_format d = f) ∨
      (f = R.GST_VAAPI_IMAGE_I420 ∧
        R.GST_VAAPI_IMAGE_YV12 ∈ mapped_formats R E.vaQuerySubpictureFormats.2 ∧
        R.GST_VAAPI_IMAGE_I420 ∉ mapped_formats R E.vaQuerySubpictureFormats.2) ∨
      (f = R.GST_VAAPI_IMAGE_YV12 ∧
        R.GST_VAAPI_IMAGE_I420 ∈ mapped_formats R E.vaQuerySubpictureFormats.2 ∧
        R.GST_VAAPI_IMAGE_YV12 ∉ mapped_formats R E.vaQuerySubpictureFormats.2)) ∧
    (∃ l, (gst_vaapi_display_create R E priv).2.1.image_formats = some l ∧
      l.length = (append_formats R [] E.vaQueryImageFormats.2).length ∧
      ∀ g, g ∈ l ↔ g ∈ append_formats R [] E.vaQueryImageFormats.2) ∧
    (∃ l, (gst_vaapi_display_create R E priv).2.1.subpicture_formats = some l ∧
      l.length = (append_formats R [] E.vaQuerySubpictureFormats.2).length ∧
      ∀ g, g ∈ l ↔ g ∈ append_formats R [] E.vaQuerySubpictureFormats.2) := by
  have hmapped : ∀ ds : List D,
      f ∈ mapped_formats R ds ↔ ∃ d ∈ ds, R.gst_vaapi_image_format d = f := by
    intro ds
    rw [mem_mapped_formats]
    exact ⟨fun h => h.2, fun h => ⟨hf, h⟩⟩
  obtain ⟨_, h2, h3⟩ := create_success R E priv hok
  refine ⟨?_, ?_, ⟨_, h2, (hsort _ _).1.length_eq, fun g => (hsort _ _).1.mem_iff⟩,
    ⟨_, h3, (hsort _ _).1.length_eq, fun g => (hsort _ _).1.mem_iff⟩⟩
  · rw [has_image_format_of_success R E hsort priv hok f hf, ret_decide_eq_true_iff,
      mem_append_formats R hne, hmapped]
  · rw [has_subpicture_format_of_success R E hsort priv hok f hf, ret_decide_eq_true_iff,
      mem_append_formats R hne, hmapped]

/-- C15 at a concrete input: image descriptors for an RGB format and for I420; the session
has the reported format 20 and the synthesised YV12, and does not have NV12. -/
theorem format_queries_decide_normalised_membership_witness :
    gst_vaapi_display_has_image_format
      (gst_vaapi_display_create demoRegistry (demoPlatform [4, 3] [5])
        (constructed_entry (gst_vaapi_display_set_property gst_vaapi_display_init 1))).2.1 11
      = Run.ret true ∧
    gst_vaapi_display_has_image_format
      (gst_vaapi_display_create demoRegistry (demoPlatform [4, 3] [5])
        (constructed_entry (gst_vaapi_display_set_property gst_vaapi_display_init 1))).2.1 10
      = Run.ret false :=
  ⟨(format_queries_decide_normalised_membership demoRegistry (demoPlatform [4, 3] [5])
      insertion_sort_contract (by decide)
      (constructed_entry (gst_vaapi_display_set_property gst_vaapi_display_init 1))
      (by decide) 11 (by decide)).1.mpr (Or.inr (Or.inr ⟨rfl, by decide, by decide⟩)),
    by decide⟩

/-! ## The comparators as orders -/

/-- The value of `compare_yuv_formats` when both scores fit in a `gint`: the subtraction is
the exact difference of the scores. -/
theorem compare_yuv_formats_value (R : FormatRegistry D S) (a b : GstVaapiImageFormat)
    (ha : R.gst_vaapi_image_format_get_score a < 2 ^ 31)
    (hb : R.gst_vaapi_image_format_get_score b < 2 ^ 31) :
    compare_yuv_formats R a b =
      if (R.gst_vaapi_image_format_is_yuv a != R.gst_vaapi_image_format_is_yuv b) = true then
        (if R.gst_vaapi_image_format_is_yuv a = true then -1 else 1)
      else
        (R.gst_vaapi_image_format_get_score a : Int) - R.gst_vaapi_image_format_get_score b := by
  unfold compare_yuv_formats
  rw [to_gint_of_lt _ ha, to_gint_of_lt _ hb, wrap_gint_of_bounds _ (by omega) (by omega)]

/-- Swapping the arguments of `compare_yuv_formats` negates the result when both scores fit
in a `gint`. -/
theorem compare_yuv_formats_swap (R : FormatRegistry D S) (a b : GstVaapiImageFormat)
    (ha : R.gst_vaapi_image_format_get_score a < 2 ^ 31)
    (hb : R.gst_vaapi_image_format_get_score b < 2 ^ 31) :
    compare_yuv_formats R b a = - compare_yuv_formats R a b := by
  rw [compare_yuv_formats_value R a b ha hb, compare_yuv_formats_value R b a hb ha]
  cases hya : R.gst_vaapi_image_format_is_yuv a <;>
    cases hyb : R.gst_vaapi_image_format_is_yuv b <;> simp

/-- The order facts about `compare_yuv_formats` on three formats whose scores fit in a
`gint`. -/
theorem compare_yuv_formats_preorder (R : FormatRegistry D S) (a b c : GstVaapiImageFormat)
    (ha : R.gst_vaapi_image_format_get_score a < 2 ^ 31)
    (hb : R.gst_vaapi_image_format_get_score b < 2 ^ 31)
    (hc : R.gst_vaapi_image_format_get_score c < 2 ^ 31) :
    compare_yuv_formats R a a = 0 ∧
    compare_yuv_formats R b a = - compare_yuv_formats R a b ∧
    Int.sign (compare_yuv_formats R b a) = - Int.sign (compare_yuv_formats R a b) ∧
    (compare_yuv_formats R a b ≤ 0 → compare_yuv_formats R b c ≤ 0 →
      compare_yuv_formats R a c ≤ 0) := by
  have hswap := compare_yuv_formats_swap R a b ha hb
  refine ⟨?_, hswap, ?_, ?_⟩
  · rw [compare_yuv_formats_value R a a ha ha]; simp
  · rw [hswap, Int.sign_neg]
  · have hcons := compare_yuv_formats_consistent R [a, b, c] (by
      intro f hf
      simp only [List.mem_cons, List.mem_singleton, List.not_mem_nil, or_false] at hf
      rcases hf with rfl | rfl | rfl <;> assumption)
    exact hcons.2 a (by simp) b (by simp) c (by simp)

/-- C16 (the comparators below and above `2^31`): for formats whose scores are below `2^31`
the signed subtraction stays inside the `gint` range, and each of `compare_yuv_formats` and
`compare_rgb_formats` returns 0 on equal arguments, changes sign when its arguments are
swapped, and is transitive in the sense of "not positive"; with a score of `2^31` the cast
makes the comparator order two formats against their unsigned scores. -/
theorem comparators_consistent_below_gint_max (R : FormatRegistry D S)
    (a b c : GstVaapiImageFormat)
    (ha : R.gst_vaapi_image_format_get_score a < 2 ^ 31)
    (hb : R.gst_vaapi_image_format_get_score b < 2 ^ 31)
    (hc : R.gst_vaapi_image_format_get_score c < 2 ^ 31) :
    (-2 ^ 31 ≤ to_gint (R.gst_vaapi_image_format_get_score a) -
        to_gint (R.gst_vaapi_image_format_get_score b) ∧
      to_gint (R.gst_vaapi_image_format_get_score a) -
        to_gint (R.gst_vaapi_image_format_get_score b) < 2 ^ 31) ∧
    (compare_yuv_formats R a a = 0 ∧
      compare_yuv_formats R b a = - compare_yuv_formats R a b ∧
      Int.sign (compare_yuv_formats R b a) = - Int.sign (compare_yuv_formats R a b) ∧
      (compare_yuv_formats R a b ≤ 0 → compare_yuv_formats R b c ≤ 0 →
        compare_yuv_formats R a c ≤ 0)) ∧
    (compare_rgb_formats R a a = 0 ∧
      compare_rgb_formats R b a = - compare_rgb_formats R a b ∧
      Int.sign (compare_rgb_formats R b a) = - Int.sign (compare_rgb_formats R a b) ∧
      (compare_rgb_formats R a b ≤ 0 → compare_rgb_formats R b c ≤ 0 →
        compare_rgb_formats R a c ≤ 0)) ∧
    (wideScoreRegistry.gst_vaapi_image_format_get_score 2 <
        wideScoreRegistry.gst_vaapi_image_format_get_score 1 ∧
      compare_yuv_formats wideScoreRegistry 1 2 < 0 ∧
      compare_rgb_formats wideScoreRegistry 1 2 < 0) := by
  refine ⟨?_, compare_yuv_formats_preorder R a b c ha hb hc, ?_, ?_⟩
  · rw [to_gint_of_lt _ ha, to_gint_of_lt _ hb]
    constructor <;> omega
  · rw [compare_rgb_formats_eq]
    exact compare_yuv_formats_preorder
      { R with gst_vaapi_image_format_is_yuv := R.gst_vaapi_image_format_is_rgb } a b c ha hb hc
  · decide

/-- C16 at a concrete input: a YUV format, a second YUV format with a greater score, and an
RGB format. -/
theorem comparators_consistent_below_gint_max_witness :
    compare_yuv_formats demoRegistry 10 12 = -2 ∧
    compare_yuv_formats demoRegistry 12 10 = - compare_yuv_formats demoRegistry 10 12 ∧
    (compare_yuv_formats demoRegistry 10 12 ≤ 0 → compare_yuv_formats demoRegistry 12 20 ≤ 0 →
      compare_yuv_formats demoRegistry 10 20 ≤ 0) :=
  ⟨by decide,
    (comparators_consistent_below_gint_max demoRegistry 10 12 20
      (by decide) (by decide) (by decide)).2.1.2.1,
    (comparators_consistent_below_gint_max demoRegistry 10 12 20
      (by decide) (by decide) (by decide)).2.1.2.2.2⟩

/-! ## Independence of the report order -/

theorem mapped_formats_perm (R : FormatRegistry D S) {ds1 ds2 : List D}
    (hperm : ds1.Perm ds2) : (mapped_formats R ds1).Perm (mapped_formats R ds2) :=
  (hperm.map R.gst_vaapi_image_format).filter _

/-- Descriptor sequences that are rearrangements of each other are normalised to
rearrangements of each other. -/
theorem append_formats_perm (R : FormatRegistry D S)
    (hne : R.GST_VAAPI_IMAGE_YV12 ≠ R.GST_VAAPI_IMAGE_I420) {ds1 ds2 : List D}
    (hperm : ds1.Perm ds2) : (append_formats R [] ds1).Perm (append_formats R [] ds2) := by
  have hm := mapped_formats_perm R hperm
  rw [append_formats_eq R hne, append_formats_eq R hne]
  simp only [← hm.mem_iff, List.nil_append]
  split_ifs
  · exact hm.append_right _
  · exact hm.append_right _
  · exact hm

/-- Two rearrangements of one list that are both in the order of a relation which is
antisymmetric on the elements are the same list. -/
theorem sorted_perm_unique {α : Type} (r : α → α → Prop) :
    ∀ (l1 l2 : List α), l1.Perm l2 →
      (∀ a ∈ l1, ∀ b ∈ l1, r a b → r b a → a = b) →
      l1.Pairwise r → l2.Pairwise r → l1 = l2 := by
  intro l1
  induction l1 with
  | nil => intro l2 hp _ _ _; exact hp.nil_eq
  | cons a t1 ih =>
    intro l2 hp hanti h1 h2
    cases l2 with
    | nil => exact absurd hp.symm.nil_eq (by simp)
    | cons b t2 =>
      have hab : a = b := by
        by_contra hne
        have ha2 : a ∈ t2 := by
          have : a ∈ b :: t2 := hp.mem_iff.mp (List.mem_cons_self _ _)
          rcases List.mem_cons.mp this with h | h
          · exact absurd h hne
          · exact h
        have hb1 : b ∈ t1 := by
          have : b ∈ a :: t1 := hp.mem_iff.mpr (List.mem_cons_self _ _)
          rcases List.mem_cons.mp this with h | h
          · exact absurd h.symm hne
          · exact h
        exact hne (hanti a (List.mem_cons_self _ _) b (List.mem_cons_of_mem _ hb1)
          ((List.pairwise_cons.mp h1).1 b hb1) ((List.pairwise_cons.mp h2).1 a ha2))
      subst hab
      have htail := ih t2 hp.cons_inv
        (fun x hx y hy => hanti x (List.mem_cons_of_mem _ hx) y (List.mem_cons_of_mem _ hy))
        (List.pairwise_cons.mp h1).2 (List.pairwise_cons.mp h2).2
      rw [htail]

/-- With scores that fit in a `gint` and a comparator that returns 0 on equal formats only,
any two sort routines give the same result on any two rearrangements of one list. -/
theorem sort_yuv_unique (R : FormatRegistry D S)
    (sort1 sort2 : (GstVaapiImageFormat → GstVaapiImageFormat → Int) →
      List GstVaapiImageFormat → List GstVaapiImageFormat)
    (h1 : GArraySortContract sort1) (h2 : GArraySortContract sort2)
    (l1 l2 : List GstVaapiImageFormat) (hperm : l1.Perm l2)
    (hscore : ∀ f ∈ l1, R.gst_vaapi_image_format_get_score f < 2 ^ 31)
    (hzero : ∀ a ∈ l1, ∀ b ∈ l1, compare_yuv_formats R a b = 0 → a = b) :
    sort1 (compare_yuv_formats R) l1 = sort2 (compare_yuv_formats R) l2 := by
  have hscore2 : ∀ f ∈ l2, R.gst_vaapi_image_format_get_score f < 2 ^ 31 :=
    fun f hf => hscore f (hperm.mem_iff.mpr hf)
  obtain ⟨p1, s1⟩ := h1 (compare_yuv_formats R) l1
  obtain ⟨p2, s2⟩ := h2 (compare_yuv_formats R) l2
  refine sorted_perm_unique (fun a b => compare_yuv_formats R a b ≤ 0) _ _
    (p1.trans (hperm.trans p2.symm)) ?_
    (s1 (compare_yuv_formats_consistent R l1 hscore))
    (s2 (compare_yuv_formats_consistent R l2 hscore2))
  intro a ha b hb hab hba
  have ha1 := p1.mem_iff.mp ha
  have hb1 := p1.mem_iff.mp hb
  have hswap := compare_yuv_formats_swap R a b (hscore a ha1) (hscore b hb1)
  exact hzero a ha1 b hb1 (by omega)

/-- The insertion sort run on the reversed array is a second routine that meets the contract
assumed of `g_array_sort`. -/
theorem insertion_sort_reverse_contract {α : Type} :
    GArraySortContract (fun (compare_func : α → α → Int) (l : List α) =>
      insertion_sort compare_func l.reverse) := by
  intro compare_func l
  refine ⟨(insertion_sort_perm compare_func l.reverse).trans (List.reverse_perm l), ?_⟩
  intro hcons
  refine insertion_sort_pairwise compare_func l.reverse ⟨?_, ?_⟩
  · intro a ha b hb
    exact hcons.1 a (List.mem_reverse.mp ha) b (List.mem_reverse.mp hb)
  · intro a ha b hb c hc
    exact hcons.2 a (List.mem_reverse.mp ha) b (List.mem_reverse.mp hb)
      c (List.mem_reverse.mp hc)

/-- C17 (deterministic ranking): for two descriptor sequences that are rearrangements of
each other and any two sort routines that meet the contract of `g_array_sort`, when the
scores of the normalised formats fit in a `gint` and the comparator returns 0 only for equal
formats among them, normalising and sorting give the same list, for `compare_yuv_formats`
and for `compare_rgb_formats`. -/
theorem ranking_independent_of_report_order (R : FormatRegistry D S)
    (sort1 sort2 : (GstVaapiImageFormat → GstVaapiImageFormat → Int) →
      List GstVaapiImageFormat → List GstVaapiImageFormat)
    (h1 : GArraySortContract sort1) (h2 : GArraySortContract sort2)
    (hne : R.GST_VAAPI_IMAGE_YV12 ≠ R.GST_VAAPI_IMAGE_I420)
    (ds1 ds2 : List D) (hperm : ds1.Perm ds2)
    (hscore : ∀ f ∈ append_formats R [] ds1, R.gst_vaapi_image_format_get_score f < 2 ^ 31) :
    ((∀ a ∈ append_formats R [] ds1, ∀ b ∈ append_formats R [] ds1,
        compare_yuv_formats R a b = 0 → a = b) →
      sort1 (compare_yuv_formats R) (append_formats R [] ds1) =
        sort2 (compare_yuv_formats R) (append_formats R [] ds2)) ∧
    ((∀ a ∈ append_formats R [] ds1, ∀ b ∈ append_formats R [] ds1,
        compare_rgb_formats R a b = 0 → a = b) →
      sort1 (compare_rgb_formats R) (append_formats R [] ds1) =
        sort2 (compare_rgb_formats R) (append_formats R [] ds2)) := by
  constructor
  · intro hzero
    exact sort_yuv_unique R sort1 sort2 h1 h2 _ _ (append_formats_perm R hne hperm)
      hscore hzero
  · intro hzero
    rw [compare_rgb_formats_eq] at hzero ⊢
    exact sort_yuv_unique
      { R with gst_vaapi_image_format_is_yuv := R.gst_vaapi_image_format_is_rgb }
      sort1 sort2 h1 h2 _ _ (append_formats_perm R hne hperm) hscore hzero

/-- C17 at a concrete input: the same three descriptors in two orders, sorted by two
different routines, give the same image list (with the synthesised I420). -/
theorem ranking_independent_of_report_order_witness :
    insertion_sort (compare_yuv_formats demoRegistry) (append_formats demoRegistry [] [4, 2, 1]) =
      insertion_sort (compare_yuv_formats demoRegistry)
        (append_formats demoRegistry [] [1, 4, 2]).reverse ∧
    insertion_sort (compare_yuv_formats demoRegistry) (append_formats demoRegistry [] [4, 2, 1]) =
      [10, 11, 12, 20] :=
  ⟨(ranking_independent_of_report_order demoRegistry insertion_sort
      (fun compare_func l => insertion_sort compare_func l.reverse)
      insertion_sort_contract insertion_sort_reverse_contract (by decide)
      [4, 2, 1] [1, 4, 2] (by decide) (fun f _ => demoRegistry_score_lt f)).1 (by decide),
    by decide⟩

/-! ## The zero format -/

theorem create_subpicture_formats_sets (R : FormatRegistry D S) (E : Platform D)
    (priv : GstVaapiDisplayPrivate) (calls : List Call) :
    SetsFromDiscovery R E priv
      (gst_vaapi_display_create_subpicture_formats R E priv calls).2.1 := by
  unfold gst_vaapi_display_create_subpicture_formats SetsFromDiscovery
  split_ifs
  · exact ⟨Or.inl rfl, Or.inl rfl⟩
  · exact ⟨Or.inl rfl, Or.inl rfl⟩
  · exact ⟨Or.inl rfl, Or.inr (Or.inl rfl)⟩
  · exact ⟨Or.inl rfl, Or.inr (Or.inr rfl)⟩

theorem create_image_formats_sets (R : FormatRegistry D S) (E : Platform D)
    (priv : GstVaapiDisplayPrivate) (calls : List Call) :
    SetsFromDiscovery R E priv (gst_vaapi_display_create_image_formats R E priv calls).2.1 := by
  unfold gst_vaapi_display_create_image_formats
  split_ifs
  · exact ⟨Or.inl rfl, Or.inl rfl⟩
  · exact ⟨Or.inl rfl, Or.inl rfl⟩
  · exact ⟨Or.inr (Or.inl rfl), Or.inl rfl⟩
  · obtain ⟨_, k2⟩ := create_subpicture_formats_sets R E
      { priv with image_formats := some (E.g_array_sort (compare_yuv_formats R)
          (append_formats R [] E.vaQueryImageFormats.2)) }
      (calls ++ [Call.vaQueryImageFormats])
    refine ⟨Or.inr (Or.inr ?_), k2⟩
    exact (create_subpicture_formats_profiles R E _ _).2

theorem create_profiles_sets (R : FormatRegistry D S) (E : Platform D)
    (priv : GstVaapiDisplayPrivate) (calls : List Call) :
    SetsFromDiscovery R E priv (gst_vaapi_display_create_profiles R E priv calls).2.1 := by
  unfold gst_vaapi_display_create_profiles
  split_ifs
  · exact ⟨Or.inl rfl, Or.inl rfl⟩
  · exact ⟨Or.inl rfl, Or.inl rfl⟩
  · exact ⟨Or.inl rfl, Or.inl rfl⟩
  · exact create_image_formats_sets R E
      { priv with profiles := some ([] ++ E.vaQueryConfigProfiles.2) }
      (calls ++ [Call.vaQueryConfigProfiles])

/-- The image and subpicture sets after `gst_vaapi_display_create` are the ones before, or
`NULL`, or the sorted normalised lists. -/
theorem create_sets (R : FormatRegistry D S) (E : Platform D)
    (priv : GstVaapiDisplayPrivate) :
    SetsFromDiscovery R E priv (gst_vaapi_display_create R E priv).2.1 := by
  obtain ⟨_, _, k3, k4, _⟩ := create_hooks_keeps E priv
  rcases create_eq R E priv with ⟨_, heq⟩ | ⟨_, _, heq⟩
  · rw [heq]
    exact ⟨Or.inl k3, Or.inl k4⟩
  · rw [heq]
    unfold gst_vaapi_display_create_queries
    simp only []
    split_ifs
    · exact ⟨Or.inl k3, Or.inl k4⟩
    · obtain ⟨s1, s2⟩ := create_profiles_sets R E (gst_vaapi_display_create_hooks E priv).2.1
        ((gst_vaapi_display_create_hooks E priv).2.2 ++ [Call.vaInitialize])
      rw [k3] at s1
      rw [k4] at s2
      exact ⟨s1, s2⟩

/-- Where the elements of the array come from after `append_formats`. -/
theorem mem_append_formats_origin (R : FormatRegistry D S)
    (hne : R.GST_VAAPI_IMAGE_YV12 ≠ R.GST_VAAPI_IMAGE_I420)
    (array : List GstVaapiImageFormat) (ds : List D) (f : GstVaapiImageFormat)
    (h : f ∈ append_formats R array ds) :
    f ∈ array ∨ (f ≠ 0 ∧ ∃ d ∈ ds, R.gst_vaapi_image_format d = f) ∨
      f = R.GST_VAAPI_IMAGE_YV12 ∨ f = R.GST_VAAPI_IMAGE_I420 := by
  have hm := (mem_mapped_formats R ds f).mp
  rw [append_formats_eq R hne] at h
  split_ifs at h
  · simp only [List.mem_append, List.mem_singleton] at h
    rcases h with (h | h) | h
    · exact Or.inl h
    · exact Or.inr (Or.inl (hm h))
    · exact Or.inr (Or.inr (Or.inr h))
  · simp only [List.mem_append, List.mem_singleton] at h
    rcases h with (h | h) | h
    · exact Or.inl h
    · exact Or.inr (Or.inl (hm h))
    · exact Or.inr (Or.inr (Or.inl h))
  · simp only [List.mem_append] at h
    rcases h with h | h
    · exact Or.inl h
    · exact Or.inr (Or.inl (hm h))

/-- With non-zero sibling constants, `append_formats` on an empty array appends no zero. -/
theorem zero_not_mem_append_formats (R : FormatRegistry D S)
    (hne : R.GST_VAAPI_IMAGE_YV12 ≠ R.GST_VAAPI_IMAGE_I420)
    (hY : R.GST_VAAPI_IMAGE_YV12 ≠ 0) (hI : R.GST_VAAPI_IMAGE_I420 ≠ 0) (ds : List D) :
    (0 : GstVaapiImageFormat) ∉ append_formats R [] ds := by
  intro h
  rcases mem_append_formats_origin R hne [] ds 0 h with h | h | h | h
  · cases h
  · exact h.1 rfl
  · exact hY h.symm
  · exact hI h.symm

/-- C18 (no zero format): with non-zero sibling constants, the image and subpicture sets of
every constructed session, when stored, do not contain the zero format; every element that
`append_formats` adds to the array is a non-zero lookup result or one of the constants YV12
and I420; and `gst_vaapi_display_has_image_format` and
`gst_vaapi_display_has_subpicture_format` return false for the zero format on every
session. -/
theorem stored_sets_exclude_zero_format (R : FormatRegistry D S) (E : Platform D)
    (hsort : GArraySortContract E.g_array_sort)
    (hne : R.GST_VAAPI_IMAGE_YV12 ≠ R.GST_VAAPI_IMAGE_I420)
    (hY : R.GST_VAAPI_IMAGE_YV12 ≠ 0) (hI : R.GST_VAAPI_IMAGE_I420 ≠ 0)
    (va_display : Nat) :
    (∀ l, (gst_vaapi_display_constructed R E
        (gst_vaapi_display_set_property gst_vaapi_display_init va_display)).1.image_formats =
        some l → (0 : GstVaapiImageFormat) ∉ l) ∧
    (∀ l, (gst_vaapi_display_constructed R E
        (gst_vaapi_display_set_property gst_vaapi_display_init
          va_display)).1.subpicture_formats = some l → (0 : GstVaapiImageFormat) ∉ l) ∧
    (∀ (array : List GstVaapiImageFormat) (ds : List D) (f : GstVaapiImageFormat),
      f ∈ append_formats R array ds →
        f ∈ array ∨ (f ≠ 0 ∧ ∃ d ∈ ds, R.gst_vaapi_image_format d = f) ∨
          f = R.GST_VAAPI_IMAGE_YV12 ∨ f = R.GST_VAAPI_IMAGE_I420) ∧
    (∀ priv : GstVaapiDisplayPrivate,
      gst_vaapi_display_has_image_format priv 0 = Run.ret false ∧
      gst_vaapi_display_has_subpicture_format priv 0 = Run.ret false) := by
  obtain ⟨s1, s2⟩ := create_sets R E
    (constructed_entry (gst_vaapi_display_set_property gst_vaapi_display_init va_display))
  refine ⟨fun l hl => ?_, fun l hl => ?_, mem_append_formats_origin R hne,
    fun _ => ⟨rfl, rfl⟩⟩
  · have hl2 : (gst_vaapi_display_create R E (constructed_entry
        (gst_vaapi_display_set_property gst_vaapi_display_init
          va_display))).2.1.image_formats = some l := hl
    rcases s1 with h | h | h
    · rw [h] at hl2; cases hl2
    · rw [h] at hl2; cases hl2
    · rw [h] at hl2
      cases hl2
      intro hmem
      exact zero_not_mem_append_formats R hne hY hI _ ((hsort _ _).1.mem_iff.mp hmem)
  · have hl2 : (gst_vaapi_display_create R E (constructed_entry
        (gst_vaapi_display_set_property gst_vaapi_display_init
          va_display))).2.1.subpicture_formats = some l := hl
    rcases s2 with h | h | h
    · rw [h] at hl2; cases hl2
    · rw [h] at hl2; cases hl2
    · rw [h] at hl2
      cases hl2
      intro hmem
      exact zero_not_mem_append_formats R hne hY hI _ ((hsort _ _).1.mem_iff.mp hmem)

/-- C18 at a concrete input: the driver reports an unknown descriptor among its image
formats; the stored image set has no zero entry. -/
theorem stored_sets_exclude_zero_format_witness :
    (gst_vaapi_display_constructed demoRegistry (demoPlatform [9, 2, 4] [9, 5])
      (gst_vaapi_display_set_property gst_vaapi_display_init 1)).1.image_formats =
      some [11, 12, 20] ∧
    (0 : GstVaapiImageFormat) ∉ [11, 12, 20] :=
  ⟨by decide,
    (stored_sets_exclude_zero_format demoRegistry (demoPlatform [9, 2, 4] [9, 5])
      insertion_sort_contract (by decide) (by decide) (by decide) 1).1 [11, 12, 20]
      (by decide)⟩

end GstVaapi
